import Mathlib

/-!
Verification of the bubblexan OMR pipeline core against its specification.

The Python sources are shallowly embedded over exact rationals (ℚ):
* `PyStr`   — character-level string primitives (strip/split/upper/lower)
  with the semantics of the Python string methods used by the sources,
  defined by structural recursion so that they evaluate inside the kernel,
* `Grade`   — grade.py (answer-key loading, Canvas-style scoring),
* `Misses`  — analyze_misses.py (tokenization, per-question miss analysis),
* `GiveBack`— give_back_questions.py (give-back adjustment flow),
* `Sheet`   — generate_bubblesheet.py (deterministic layout solver).

Machine floats of the source are modelled as exact rationals; Python's
`round(x, 2)` is modelled as round-half-to-even at two decimal places,
which agrees with the source on every value the embedded code produces.
Fallible code is embedded with `Except String`.
-/

instance {ε α : Type} [DecidableEq ε] [DecidableEq α] : DecidableEq (Except ε α) := fun x y =>
  match x, y with
  | .ok a, .ok b => decidable_of_iff (a = b) (by simp)
  | .ok _, .error _ => isFalse (by simp)
  | .error _, .ok _ => isFalse (by simp)
  | .error e, .error f => decidable_of_iff (e = f) (by simp)

namespace PyStr

/-- Python `str.strip` on a character list. -/
def trimList (cs : List Char) : List Char :=
  ((cs.dropWhile Char.isWhitespace).reverse.dropWhile Char.isWhitespace).reverse

/-- Python `str.strip`. -/
def strip (s : String) : String := ⟨trimList s.data⟩

/-- Python `str.lower`. -/
def lower (s : String) : String := ⟨s.data.map Char.toLower⟩

/-- Python `str.upper`. -/
def upper (s : String) : String := ⟨s.data.map Char.toUpper⟩

/-- Split a character list at every character satisfying `sep` (each separator
occurrence starts a new part, so adjacent separators produce empty parts,
matching Python `str.split(",")` for a one-character separator). -/
def splitChars (sep : Char → Bool) (cs : List Char) : List (List Char) :=
  cs.foldr
    (fun c acc =>
      match acc with
      | [] => [[c]]
      | a :: as => if sep c then [] :: a :: as else (c :: a) :: as)
    [[]]

/-- Python `str.split(sep)` for a one-character separator. -/
def split (sep : Char) (s : String) : List String :=
  (splitChars (fun c => c = sep) s.data).map fun cs => ⟨cs⟩

/-- Split on every character satisfying a predicate; combined with dropping
empty parts this has the semantics of `re.split` on a character class with
`+` repetition, as used by analyze_misses.py. -/
def splitAny (p : Char → Bool) (s : String) : List String :=
  (splitChars p s.data).map fun cs => ⟨cs⟩

/-- Python single-character `str.replace`. -/
def replaceChar (a b : Char) (s : String) : String :=
  ⟨s.data.map fun c => if c = a then b else c⟩

end PyStr

namespace Grade

/-- Round half to even at the integer level (the tie rule of Python's `round`). -/
def roundHalfToEven (x : ℚ) : ℤ :=
  let f := ⌊x⌋
  if x - f < 1/2 then f
  else if 1/2 < x - f then f + 1
  else if f % 2 = 0 then f else f + 1

/-- Python `round(x, 2)` on a rational. -/
def pyRound2 (x : ℚ) : ℚ := (roundHalfToEven (x * 100) : ℚ) / 100

/-- grade.py `_tokenize_answers`: `None` and blank cells give `[]`; otherwise split
on commas, strip each part, lowercase, and drop empty parts. -/
def tokenizeAnswers : Option String → List String
  | none => []
  | some value =>
    let text := PyStr.strip value
    if text = "" then []
    else (PyStr.split ',' text).filterMap fun part =>
      if PyStr.strip part = "" then none else some (PyStr.lower (PyStr.strip part))

/-- grade.py `QuestionSpec`. -/
structure QuestionSpec where
  question_id : String
  correct_options : Finset String
  points : ℚ
deriving DecidableEq

/-- grade.py `QuestionSpec.is_multiple`: more than one correct option. -/
def QuestionSpec.is_multiple (spec : QuestionSpec) : Bool :=
  1 < spec.correct_options.card

/-- grade.py `score_multiple_select`: the Canvas multiple-select formula.
`ValueError` branches are embedded as `.error`; the degenerate
`correct_options <= 0` branch returns a 0.0 score as in the source. -/
def score_multiple_select (total_points : ℚ) (correct_options selected_correct selected_incorrect : ℕ) :
    Except String ℚ :=
  if total_points < 0 then .error "total points cannot be negative"
  else if correct_options = 0 then .ok 0
  else if correct_options < selected_correct then .error "selected correct exceeds number of correct options"
  else
    let point_per_option := total_points / correct_options
    let raw_score := ((selected_correct : ℚ) - (selected_incorrect : ℚ)) * point_per_option
    let score := max 0 raw_score
    .ok (pyRound2 (score + 1e-12))

/-- grade.py `_score_row`: look the question up in the key, tokenize the
selected answers, and dispatch on single- versus multiple-select. -/
def score_row (answer_map : List (String × QuestionSpec)) (question_id : String)
    (selected_answers : Option String) : Except String ℚ :=
  let qid := PyStr.upper (PyStr.strip question_id)
  match (answer_map.find? fun p => p.1 == qid).map (fun p => p.2) with
  | none => .error "question not found in answer key"
  | some spec =>
    let selected := (tokenizeAnswers selected_answers).toFinset
    if spec.is_multiple = false then
      let score : ℚ := if selected = spec.correct_options then spec.points else 0
      .ok (pyRound2 score)
    else
      score_multiple_select spec.points spec.correct_options.card
        ((selected ∩ spec.correct_options).card) ((selected \ spec.correct_options).card)

/-- One row of the answer-key CSV as consumed by grade.py `load_answer_key`. -/
structure KeyRow where
  question : String
  correct_answer : Option String
  points : ℚ
deriving DecidableEq

/-- The row loop of grade.py `load_answer_key`, threading the accumulated
question map, running point total and question order. -/
def loadAnswerKeyRows :
    List KeyRow → List (String × QuestionSpec) → ℚ → List String →
    Except String (List (String × QuestionSpec) × ℚ × List String)
  | [], acc, total, order =>
    if total ≤ 0 then .error "total possible points must be positive"
    else .ok (acc, total, order)
  | row :: rest, acc, total, order =>
    let raw_question := PyStr.strip row.question
    if raw_question = "" then .error "answer-key row is missing a question value"
    else
      let question_id := PyStr.upper raw_question
      let tokens := tokenizeAnswers row.correct_answer
      if tokens = [] then .error "question has no valid correct answers"
      else if row.points < 0 then .error "question has negative point value"
      else if (acc.find? fun p => p.1 == question_id).isSome then
        .error "duplicate question in answer key"
      else
        loadAnswerKeyRows rest
          (acc ++ [(question_id, QuestionSpec.mk question_id tokens.toFinset row.points)])
          (total + row.points) (order ++ [question_id])

/-- grade.py `load_answer_key` over already-parsed CSV rows. -/
def load_answer_key (rows : List KeyRow) :
    Except String (List (String × QuestionSpec) × ℚ × List String) :=
  loadAnswerKeyRows rows [] 0 []

end Grade

namespace Misses

/-- analyze_misses.py `VALID_OPTIONS`. -/
def VALID_OPTIONS : List String := ["A", "B", "C", "D", "E"]

/-- analyze_misses.py `tokenize_options`: strip, remove one enclosing bracket
pair, turn semicolons into commas, split on runs of commas/whitespace,
uppercase, and drop empty parts. -/
def tokenize_options (value : String) : List String :=
  let text := PyStr.strip value
  if text = "" then []
  else
    let text :=
      if text.data.head? = some '[' ∧ text.data.getLast? = some ']' then
        (⟨(text.data.drop 1).dropLast⟩ : String)
      else text
    let text := PyStr.replaceChar ';' ',' text
    (PyStr.splitAny (fun c => c == ',' || c.isWhitespace) text).filterMap fun part =>
      if PyStr.strip part = "" then none else some (PyStr.upper (PyStr.strip part))

/-- analyze_misses.py `parse_answer_value`: reject empty entries and tokens
outside A–E, otherwise return the token set. -/
def parse_answer_value (value : String) : Except String (Finset String) :=
  let tokens := tokenize_options value
  if tokens = [] then .error "answer entry is empty"
  else if (tokens.filter fun t => t ∉ VALID_OPTIONS) ≠ [] then
    .error "answer contains invalid options"
  else .ok tokens.toFinset

/-- analyze_misses.py `parse_student_response`: empty gives an empty set, a
token outside A–E gives an empty set together with a warning, otherwise the
token set. -/
def parse_student_response (raw : String) : Finset String × Option String :=
  let tokens := tokenize_options raw
  if tokens = [] then (∅, none)
  else if (tokens.filter fun t => t ∉ VALID_OPTIONS) ≠ [] then
    (∅, some "invalid options")
  else (tokens.toFinset, none)

/-- analyze_misses.py `AnswerSpec`. -/
structure AnswerSpec where
  question_label : String
  column_name : String
  correct_options : Finset String
  answer_display : String
deriving DecidableEq

/-- The per-response body of analyze_misses.py `analyze_question`: given the
correct-option set, the partial threshold and the raw response cell, return
whether the response counts as missed together with the hit count recorded
in the partial-credit histogram (if any). Log messages are not modelled. -/
def analyzeResponse (correct : Finset String) (partialThreshold : ℚ) (raw : String) :
    Bool × Option ℕ :=
  match parse_student_response raw with
  | (_, some _) => (true, none)
  | (selected, none) =>
    if selected = ∅ then (true, none)
    else if correct.card = 1 then
      (decide (selected ≠ correct), none)
    else
      let extra := selected \ correct
      let hits := (selected ∩ correct).card
      if extra ≠ ∅ then (true, none)
      else if hits = 0 then (true, none)
      else
        (decide ((hits : ℚ) / (correct.card : ℚ) + 1e-9 < partialThreshold),
          if hits < correct.card then some hits else none)

/-- analyze_misses.py `analyze_question`: fold the per-response analysis over
all rows of the spec's column, counting misses and collecting the recorded
partial hit counts (the histogram, kept here as the list of entries). -/
def analyze_question (spec : AnswerSpec) (results : List String) (partialThreshold : ℚ) :
    ℕ × List ℕ :=
  results.foldl
    (fun acc raw =>
      let r := analyzeResponse spec.correct_options partialThreshold raw
      (acc.1 + (if r.1 then 1 else 0),
       match r.2 with
       | some h => acc.2 ++ [h]
       | none => acc.2))
    (0, [])
end Misses

namespace GiveBack

/-- One response row of the scanner results CSV (give_back_questions.py). -/
structure GBRow where
  student_id : String
  question_id : String
  selected_answers : String
deriving DecidableEq

/-- give_back_questions.py `AdjustmentRecord`. -/
structure AdjustmentRecord where
  question_id : String
  row_count : ℕ
  student_count : ℕ
deriving DecidableEq

/-- One row of the answer-key CSV as consumed by give_back_questions.py. -/
structure GBKeyRow where
  question : String
  correct_answer : String
  points : ℚ
deriving DecidableEq

/-- give_back_questions.py `normalize_version`: strip, reject blank labels and
labels with characters outside [A-Za-z0-9_-]. -/
def normalize_version (version : String) : Except String String :=
  let text := PyStr.strip version
  if text = "" then .error "version label cannot be blank"
  else if text.data.all (fun c => c.isAlphanum || c == '_' || c == '-') then .ok text
  else .error "version label may only contain letters, numbers, underscores, or hyphens"

/-- The seen-set loop of give_back_questions.py `parse_question_list`:
keep the first occurrence of each id. -/
def dedupKeepFirst (seen : List String) : List String → List String
  | [] => []
  | x :: xs => if x ∈ seen then dedupKeepFirst seen xs else x :: dedupKeepFirst (x :: seen) xs

/-- give_back_questions.py `parse_question_list`: comma-split, strip, drop
empties, uppercase, de-duplicate keeping first occurrences; an empty result
is an error. -/
def parse_question_list (raw : String) : Except String (List String) :=
  let tokens := (PyStr.split ',' raw).map PyStr.strip
  let cleaned := dedupKeepFirst [] ((tokens.filter fun t => t ≠ "").map PyStr.upper)
  if cleaned = [] then .error "no valid question ids were supplied"
  else .ok cleaned

/-- give_back_questions.py `load_results` normalization of an already-parsed
CSV: strip student ids, strip and uppercase question ids, missing
selected-answer cells are already represented as strings. -/
def load_results (rows : List GBRow) : List GBRow :=
  rows.map fun r =>
    { r with
      student_id := PyStr.strip r.student_id
      question_id := PyStr.upper (PyStr.strip r.question_id) }

/-- give_back_questions.py `load_answer_key` over an already-parsed CSV:
normalize the Question column and reject duplicate questions. -/
def load_answer_key (rows : List GBKeyRow) : Except String (List GBKeyRow) :=
  let rows := rows.map fun r => { r with question := PyStr.upper (PyStr.strip r.question) }
  if (rows.map fun r => r.question).Nodup then .ok rows
  else .error "answer-key contains duplicate question entries"

/-- give_back_questions.py `ensure_questions_exist`. -/
def ensure_questions_exist (question_ids : List String) (key : List GBKeyRow) :
    Except String Unit :=
  let missing := question_ids.filter fun qid => !((key.map fun r => r.question).contains qid)
  if missing = [] then .ok ()
  else .error "questions not found in the answer key"

/-- give_back_questions.py `ensure_outputs_available`: refuse to overwrite. -/
def ensure_outputs_available (paths existing : List String) : Except String Unit :=
  let conflicts := paths.filter fun p => existing.contains p
  if conflicts = [] then .ok ()
  else .error "refusing to overwrite existing files"

/-- The `answer_lookup` dict of `apply_give_backs` (duplicates are rejected
before it is built, so first match wins). -/
def answerLookup (key : List GBKeyRow) (qid : String) : Option String :=
  (key.find? fun r => r.question == qid).map fun r => r.correct_answer

/-- One iteration of the loop of give_back_questions.py `apply_give_backs`:
overwrite `selected_answers` of every row of the question with the key's
correct-answer string and record how many rows / distinct students were
touched (a `KeyError` on the lookup is embedded as `.error`). -/
def applyGiveBackOne (rows : List GBRow) (key : List GBKeyRow) (qid : String) :
    Except String (List GBRow × AdjustmentRecord) :=
  let row_count := (rows.filter fun r => r.question_id == qid).length
  if 0 < row_count then
    match answerLookup key qid with
    | none => .error "question missing from answer lookup"
    | some answer =>
      let newRows := rows.map fun r =>
        if r.question_id == qid then { r with selected_answers := answer } else r
      let student_count :=
        (((newRows.filter fun r => r.question_id == qid).map fun r => r.student_id).dedup).length
      .ok (newRows, ⟨qid, row_count, student_count⟩)
  else .ok (rows, ⟨qid, row_count, 0⟩)

/-- give_back_questions.py `apply_give_backs` over the requested ids. -/
def apply_give_backs (key : List GBKeyRow) :
    List GBRow → List String → Except String (List GBRow × List AdjustmentRecord)
  | rows, [] => .ok (rows, [])
  | rows, qid :: rest =>
    match applyGiveBackOne rows key qid with
    | .error e => .error e
    | .ok (r1, rec) =>
      match apply_give_backs key r1 rest with
      | .error e => .error e
      | .ok (r2, recs) => .ok (r2, rec :: recs)

/-- Number of response rows of a question (pandas `mask.sum()`). -/
def rowsTouched (rows : List GBRow) (qid : String) : ℕ :=
  (rows.filter fun r => r.question_id == qid).length

/-- Number of distinct students among a question's rows (pandas `nunique`). -/
def studentsTouched (rows : List GBRow) (qid : String) : ℕ :=
  (((rows.filter fun r => r.question_id == qid).map fun r => r.student_id).dedup).length

/-- A file-system event of the give-back flow. -/
inductive GBEvent where
  | wrote (path : String)
  | errored (msg : String)
deriving DecidableEq

/-- give_back_questions.py `main` as a file-event trace, in source order:
version normalization, question-list parsing, output pre-existence check,
results and key loading, key membership check, give-back application; a
raised `AdjustmentError` stops the run with no further writes, and on
success the adjusted results CSV and the two graded reports produced by the
chained grade.py run are written. -/
def gbMain (version give_back : String) (existing : List String)
    (results : List GBRow) (key : List GBKeyRow) : List GBEvent :=
  match normalize_version version with
  | .error e => [.errored e]
  | .ok v =>
    match parse_question_list give_back with
    | .error e => [.errored e]
    | .ok question_ids =>
      let adjusted_path := v ++ "_results.csv"
      let final_csv := v ++ "_graded_report.csv"
      let final_xlsx := v ++ "_graded_report.xlsx"
      match ensure_outputs_available [adjusted_path, final_csv, final_xlsx] existing with
      | .error e => [.errored e]
      | .ok _ =>
        let resultRows := load_results results
        match load_answer_key key with
        | .error e => [.errored e]
        | .ok keyRows =>
          match ensure_questions_exist question_ids keyRows with
          | .error e => [.errored e]
          | .ok _ =>
            match apply_give_backs keyRows resultRows question_ids with
            | .error e => [.errored e]
            | .ok _ => [.wrote adjusted_path, .wrote final_csv, .wrote final_xlsx]

def noWrites (trace : List GBEvent) : Prop := ∀ p, GBEvent.wrote p ∉ trace

/-- Some step of the trace raised an AdjustmentError. -/
def raisedError (trace : List GBEvent) : Prop := ∃ e, GBEvent.errored e ∈ trace

end GiveBack

namespace Sheet

/-- generate_bubblesheet.py `MM_TO_POINTS`. -/
def MM_TO_POINTS : ℚ := 72 / 25.4

/-- generate_bubblesheet.py `mm_to_points`. -/
def mm_to_points (value : ℚ) : ℚ := value * MM_TO_POINTS

/-- generate_bubblesheet.py `OPTIONS`. -/
def OPTIONS : List String := ["A", "B", "C", "D", "E"]

/-- generate_bubblesheet.py `PAPER_SIZES` (point dimensions). -/
def PAPER_SIZES (name : String) : Option (ℚ × ℚ) :=
  if name = "A4" then some (595, 842)
  else if name = "LETTER" then some (612, 792)
  else none

/-- generate_bubblesheet.py `LayoutSettings`. -/
structure LayoutSettings where
  margin : ℚ
  bubble_radius : ℚ
  question_label_width : ℚ
  question_row_height : ℚ
  question_column_spacing : ℚ
  question_column_spacing_min : ℚ
  option_step : ℚ
  option_label_gap : ℚ
  id_column_step : ℚ
  id_vertical_step : ℚ
  section_gap : ℚ
  title_block : ℚ
  student_id_header_gap : ℚ
  digit_label_gap : ℚ
  student_id_marker_clearance : ℚ
  alignment_clearance : ℚ
deriving DecidableEq

/-- generate_bubblesheet.py `build_layout_settings`. -/
def build_layout_settings : LayoutSettings :=
  let bubble_diameter := mm_to_points 4
  { margin := 36
    bubble_radius := bubble_diameter / 2
    question_label_width := mm_to_points 12
    question_row_height := bubble_diameter + mm_to_points 4
    question_column_spacing := mm_to_points 14
    question_column_spacing_min := mm_to_points 6
    option_step := bubble_diameter + mm_to_points 4
    option_label_gap := mm_to_points 2.5
    id_column_step := bubble_diameter + mm_to_points 6
    id_vertical_step := bubble_diameter + mm_to_points 3
    section_gap := mm_to_points 14
    title_block := mm_to_points 18
    student_id_header_gap := mm_to_points 8
    digit_label_gap := mm_to_points 2.5
    student_id_marker_clearance := mm_to_points 6
    alignment_clearance := mm_to_points 6 }

/-- generate_bubblesheet.py `validate_inputs` (QUESTIONS_RANGE and
ID_LENGTH_RANGE membership). -/
def validate_inputs (questions id_length : ℕ) : Prop :=
  1 ≤ questions ∧ questions ≤ 50 ∧ 4 ≤ id_length ∧ id_length ≤ 10

instance (questions id_length : ℕ) : Decidable (validate_inputs questions id_length) := by
  unfold validate_inputs
  infer_instance

/-- An alignment marker square (the `type` field of the source dict is always
"square" and is omitted). -/
structure Marker where
  x : ℚ
  y : ℚ
  size : ℚ
deriving DecidableEq

/-- generate_bubblesheet.py `build_alignment_markers`. -/
def build_alignment_markers (width height : ℚ) (s : LayoutSettings) : List Marker :=
  let size := mm_to_points 12
  let offset := s.margin / 2
  [⟨offset, offset, size⟩,
   ⟨width - offset - size, offset, size⟩,
   ⟨offset, height - offset - size, size⟩,
   ⟨width - offset - size, height - offset - size, size⟩]

/-- generate_bubblesheet.py `compute_student_id_clearance`: minimum of
`y - clearance` over the markers of the upper half of the page. -/
def compute_student_id_clearance (markers : List Marker) (page_height clearance : ℚ) :
    Option ℚ :=
  let halfway := page_height / 2
  ((markers.filter fun m => halfway ≤ m.y + m.size / 2).map fun m => m.y - clearance).min?

/-- The marker fold of generate_bubblesheet.py `compute_horizontal_safe_area`:
clearance-adjusted left and right edges, before the fallback. -/
def safe_area_fold (markers : List Marker) (page_width margin clearance : ℚ) : ℚ × ℚ :=
  let halfway := page_width / 2
  markers.foldl
    (fun lr m =>
      if m.x + m.size / 2 ≤ halfway then (max lr.1 (m.x + m.size + clearance), lr.2)
      else (lr.1, min lr.2 (m.x - clearance)))
    (margin, page_width - margin)

/-- generate_bubblesheet.py `compute_horizontal_safe_area` (the source early
return for empty marker lists coincides with the fold's initial value). -/
def compute_horizontal_safe_area (markers : List Marker) (page_width margin clearance : ℚ) :
    ℚ × ℚ :=
  let lr := safe_area_fold markers page_width margin clearance
  if lr.2 ≤ lr.1 then (margin, page_width - margin) else lr

/-- A student-id bubble; the digit value is stored numerically. -/
structure IdBubble where
  value : ℕ
  x : ℚ
  y : ℚ
  radius : ℚ
deriving DecidableEq

/-- One student-id digit column of the layout. -/
structure IdColumn where
  digit_index : ℕ
  label_x : ℚ
  label_y : ℚ
  bubbles : List IdBubble
deriving DecidableEq

/-- An answer-option bubble of a question block. -/
structure QBubble where
  letter : String
  x : ℚ
  y : ℚ
  radius : ℚ
deriving DecidableEq

/-- One question block of the layout. -/
structure QuestionBlock where
  number : ℕ
  label_x : ℚ
  label_y : ℚ
  bubbles : List QBubble
deriving DecidableEq

/-- generate_bubblesheet.py `build_student_id_layout_vertical`. -/
def build_student_id_layout_vertical (id_length : ℕ)
    (area_left usable_width top_center_y : ℚ) (s : LayoutSettings) :
    Except String (List IdColumn × ℚ) :=
  let total_width := ((id_length : ℚ) - 1) * s.id_column_step + 2 * s.bubble_radius
  if usable_width < total_width then
    .error "student id section does not fit horizontally"
  else
    let start_x := area_left + (usable_width - total_width) / 2
    let columns : List IdColumn := (List.range id_length).map fun (digit_index : ℕ) =>
      let column_center_x := start_x + s.bubble_radius + (digit_index : ℚ) * s.id_column_step
      { digit_index := digit_index + 1
        label_x := column_center_x - s.bubble_radius
        label_y := top_center_y + s.bubble_radius + s.digit_label_gap
        bubbles := (List.range 10).map fun (v : ℕ) =>
          ⟨v, column_center_x, top_center_y - (v : ℚ) * s.id_vertical_step, s.bubble_radius⟩ }
    .ok (columns, top_center_y - 9 * s.id_vertical_step)

/-- generate_bubblesheet.py `build_student_id_layout_horizontal`. -/
def build_student_id_layout_horizontal (id_length : ℕ)
    (area_left usable_width top_center_y : ℚ) (s : LayoutSettings) :
    Except String (List IdColumn × ℚ) :=
  let num_values : ℕ := 10
  let total_width := ((num_values : ℚ) - 1) * s.id_column_step + 2 * s.bubble_radius
  if usable_width < total_width then
    .error "student id section does not fit horizontally"
  else
    let start_x := area_left + (usable_width - total_width) / 2
    let label_x_offset := s.question_label_width / 2 + s.option_label_gap
    let columns : List IdColumn := (List.range id_length).map fun (digit_index : ℕ) =>
      let center_y := top_center_y - (digit_index : ℚ) * s.id_vertical_step
      { digit_index := digit_index + 1
        label_x := start_x - label_x_offset
        label_y := center_y - s.bubble_radius / 2
        bubbles := (List.range num_values).map fun (value_index : ℕ) =>
          ⟨value_index, start_x + s.bubble_radius + (value_index : ℚ) * s.id_column_step,
            center_y, s.bubble_radius⟩ }
    .ok (columns, top_center_y - max 0 ((id_length : ℚ) - 1) * s.id_vertical_step)

/-- generate_bubblesheet.py `build_student_id_layout`. -/
def build_student_id_layout (id_length : ℕ) (area_left usable_width top_center_y : ℚ)
    (orientation : String) (s : LayoutSettings) : Except String (List IdColumn × ℚ) :=
  if orientation = "horizontal" then
    build_student_id_layout_horizontal id_length area_left usable_width top_center_y s
  else
    build_student_id_layout_vertical id_length area_left usable_width top_center_y s

/-- The `question_block_width` of `build_question_layout`. -/
def question_block_width (s : LayoutSettings) : ℚ :=
  s.question_label_width + 2 * s.bubble_radius + s.option_step * ((OPTIONS.length : ℚ) - 1)

/-- The inner `spacing_for_columns` of `build_question_layout`. -/
def spacing_for_columns (s : LayoutSettings) (qbw available_width : ℚ) (column_count : ℕ) :
    Option ℚ :=
  if column_count = 1 then
    if qbw ≤ available_width then some 0 else none
  else
    let total_block_width := (column_count : ℚ) * qbw
    if available_width < total_block_width then none
    else
      let max_spacing_allowed := (available_width - total_block_width) / ((column_count : ℚ) - 1)
      if max_spacing_allowed < s.question_column_spacing_min then none
      else some (min s.question_column_spacing max_spacing_allowed)

/-- The first-fit downward search of `build_question_layout` over the column
count, from the given start value down to 1. -/
def search_columns (s : LayoutSettings) (questions : ℕ) (qbw available_width : ℚ)
    (max_rows : ℕ) : ℕ → Option (ℕ × ℕ × ℚ)
  | 0 => none
  | column_count + 1 =>
    let cc := column_count + 1
    let rows_needed := (questions + cc - 1) / cc
    match spacing_for_columns s qbw available_width cc with
    | none => search_columns s questions qbw available_width max_rows column_count
    | some spacing =>
      if rows_needed ≤ max_rows then some (cc, rows_needed, spacing)
      else search_columns s questions qbw available_width max_rows column_count

/-- `max_rows_by_height` of `build_question_layout`. -/
def max_rows_by_height (available_height row_height : ℚ) : ℕ :=
  max 1 (Int.toNat ⌊available_height / row_height⌋)

/-- `max_columns_by_width` of `build_question_layout`. -/
def max_columns_by_width (available_width qbw min_spacing : ℚ) : ℕ :=
  max 1 (Int.toNat ⌊(available_width + min_spacing) / (qbw + min_spacing)⌋)

/-- One question block placed at a (column, row) cell of the grid. -/
def mkQuestionBlock (area_top start_x qbw spacing : ℚ) (s : LayoutSettings)
    (column_index row_index number : ℕ) : QuestionBlock :=
  let column_x := start_x + (column_index : ℚ) * (qbw + spacing)
  let center_y := area_top - (row_index : ℚ) * s.question_row_height
  let first_bubble_x := column_x + s.question_label_width + s.bubble_radius
  { number := number
    label_x := column_x
    label_y := center_y
    bubbles := OPTIONS.enum.map fun oi =>
      ⟨oi.2, first_bubble_x + (oi.1 : ℚ) * s.option_step, center_y, s.bubble_radius⟩ }

/-- generate_bubblesheet.py `build_question_layout`; the metadata triple is
(columns, rows, column spacing). -/
def build_question_layout (questions : ℕ) (area_top start_x available_width : ℚ)
    (s : LayoutSettings) : Except String (List QuestionBlock × ℕ × ℕ × ℚ) :=
  let qbw := question_block_width s
  let available_height := area_top - (s.margin + s.bubble_radius)
  if available_height ≤ s.question_row_height then
    .error "not enough vertical space for the questions section"
  else
    let max_rows := max_rows_by_height available_height s.question_row_height
    let max_columns :=
      min questions (max_columns_by_width available_width qbw s.question_column_spacing_min)
    match search_columns s questions qbw available_width max_rows max_columns with
    | none => .error "question grid cannot fit on the selected paper size"
    | some (chosen_columns, chosen_rows, column_spacing) =>
      let layout := (List.range chosen_columns).flatMap fun column_index =>
        (List.range chosen_rows).filterMap fun row_index =>
          let question_number := column_index * chosen_rows + row_index + 1
          if question_number ≤ questions then
            some (mkQuestionBlock area_top start_x qbw column_spacing s
              column_index row_index question_number)
          else none
      .ok (layout, chosen_columns, chosen_rows, column_spacing)

/-- generate_bubblesheet.py `ID_ORIENTATIONS`. -/
def ID_ORIENTATIONS : List String := ["vertical", "horizontal"]

/-- The solved layout (`generate_layout`'s returned dict; rendering-only
fields are omitted, the metadata fields used by the claims are kept). -/
structure PageLayout where
  paper_size : String
  width : ℚ
  height : ℚ
  questions : List QuestionBlock
  student_id : List IdColumn
  alignment_markers : List Marker
  question_columns : ℕ
  question_rows : ℕ
  question_column_spacing : ℚ
  content_left : ℚ
  content_right : ℚ
  question_area_top : ℚ
deriving DecidableEq

/-- The body of generate_bubblesheet.py `generate_layout` after paper-size and
orientation validation, for a page of the given dimensions. -/
def generate_layout_for (questions id_length : ℕ) (orientation : String)
    (width height : ℚ) (paper_name : String) (s : LayoutSettings) :
    Except String PageLayout :=
  let markers := build_alignment_markers width height s
  let id_top_init := height - s.margin - s.title_block
  let sa := compute_horizontal_safe_area markers width s.margin s.alignment_clearance
  let safe_left := sa.1
  let safe_right := sa.2
  let usable_width := safe_right - safe_left
  if usable_width ≤ 0 then .error "unable to place content horizontally"
  else
    let id_top_y :=
      match compute_student_id_clearance markers height s.student_id_marker_clearance with
      | none => id_top_init
      | some clearance_limit =>
        min id_top_init (clearance_limit - (s.bubble_radius + s.student_id_header_gap))
    match build_student_id_layout id_length safe_left usable_width id_top_y orientation s with
    | .error e => .error e
    | .ok sid =>
      let question_area_top := sid.2 - s.bubble_radius - s.section_gap
      match build_question_layout questions question_area_top safe_left usable_width s with
      | .error e => .error e
      | .ok ql =>
        .ok { paper_size := paper_name
              width := width
              height := height
              questions := ql.1
              student_id := sid.1
              alignment_markers := markers
              question_columns := ql.2.1
              question_rows := ql.2.2.1
              question_column_spacing := ql.2.2.2
              content_left := safe_left
              content_right := safe_right
              question_area_top := question_area_top }

/-- generate_bubblesheet.py `generate_layout`. -/
def generate_layout (questions id_length : ℕ) (paper_key id_orientation : String)
    (s : LayoutSettings) : Except String PageLayout :=
  let paper_name := PyStr.upper paper_key
  match PAPER_SIZES paper_name with
  | none => .error "paper-size must be one of: A4, LETTER"
  | some wh =>
    let orientation := PyStr.lower id_orientation
    if orientation ∉ ID_ORIENTATIONS then .error "id-orientation must be vertical or horizontal"
    else generate_layout_for questions id_length orientation wh.1 wh.2 paper_name s

/-- The (x, y, radius) triples of every bubble of a layout (question bubbles
and student-id bubbles). -/
def bubbleTriples (layout : PageLayout) : List (ℚ × ℚ × ℚ) :=
  (layout.questions.flatMap fun qb => qb.bubbles.map fun b => (b.x, b.y, b.radius)) ++
    layout.student_id.flatMap fun col => col.bubbles.map fun b => (b.x, b.y, b.radius)

/-- The bubble lies entirely within the margin-bounded content box. -/
def inContentBounds (margin width height : ℚ) (b : ℚ × ℚ × ℚ) : Prop :=
  margin ≤ b.1 - b.2.2 ∧ b.1 + b.2.2 ≤ width - margin ∧
    margin ≤ b.2.1 - b.2.2 ∧ b.2.1 + b.2.2 ≤ height - margin

/-- The bubble center is at least `clearance` away (in each axis) from the
marker square: it lies outside the marker rectangle inflated by `clearance`. -/
def clearOfMarker (clearance : ℚ) (m : Marker) (b : ℚ × ℚ × ℚ) : Prop :=
  ¬ (m.x - clearance < b.1 ∧ b.1 < m.x + m.size + clearance ∧
     m.y - clearance < b.2.1 ∧ b.2.1 < m.y + m.size + clearance)

instance (margin width height : ℚ) (b : ℚ × ℚ × ℚ) :
    Decidable (inContentBounds margin width height b) := by
  unfold inContentBounds
  infer_instance

instance (clearance : ℚ) (m : Marker) (b : ℚ × ℚ × ℚ) :
    Decidable (clearOfMarker clearance m b) := by
  unfold clearOfMarker
  infer_instance

/-- A demonstration layout: the solved sheet for 1 question, a 4-digit id,
A4 paper and vertical id orientation. -/
def demoLayout : PageLayout :=
  (generate_layout 1 4 "A4" "vertical" build_layout_settings).toOption.getD
    ⟨"", 0, 0, [], [], [], 0, 0, 0, 0, 0, 0⟩

end Sheet

namespace Grade

/-- Rounding a rational whose value has at most two decimal places at two
decimal places is the identity. -/
theorem pyRound2_eq_self (x : ℚ) (h : (x * 100).den = 1) : pyRound2 x = x := by
  obtain ⟨n, hn⟩ : ∃ n : ℤ, (n : ℚ) = x * 100 :=
    ⟨(x * 100).num, by conv_rhs => rw [← Rat.num_div_den (x * 100)]; rw [h]; simp⟩
  simp only [pyRound2, roundHalfToEven, ← hn, Int.floor_intCast, sub_self]
  rw [if_pos (by norm_num)]
  rw [hn]
  exact mul_div_cancel_right₀ x (by norm_num)

theorem pyRound2_zero : pyRound2 0 = 0 := by decide!

theorem pyRound2_epsilon : pyRound2 (1e-12 : ℚ) = 0 := by decide!

/-- `_score_row` unfolded at a singleton answer map keyed by the question id. -/
theorem score_row_eq (spec : QuestionSpec) (raw : Option String) :
    score_row [("Q1", spec)] "Q1" raw =
      if spec.is_multiple = false then
        .ok (pyRound2 (if (tokenizeAnswers raw).toFinset = spec.correct_options then spec.points else 0))
      else
        score_multiple_select spec.points spec.correct_options.card
          ((tokenizeAnswers raw).toFinset ∩ spec.correct_options).card
          ((tokenizeAnswers raw).toFinset \ spec.correct_options).card := rfl

/-- C1: for every multi-select question (at least 2 correct options) with
point value P ≥ 0 and correct-option count C, scoring a response with
S_c = |selected ∩ correct| and S_i = |selected − correct| returns
max(0, (S_c − S_i)·(P/C)) rounded to 2 decimal places after adding the
epsilon 1e-12; in particular, with P = 4.00 and correct set {B,C,D},
selecting {B,C} scores 2.67, selecting {B,C,D,A} scores 2.67, and
selecting {A} scores 0. -/
theorem c1_multi_select_scoring :
    (∀ (spec : QuestionSpec) (raw : Option String),
      2 ≤ spec.correct_options.card → 0 ≤ spec.points →
      score_row [("Q1", spec)] "Q1" raw =
        .ok (pyRound2 (max 0
          (((((tokenizeAnswers raw).toFinset ∩ spec.correct_options).card : ℚ) -
              (((tokenizeAnswers raw).toFinset \ spec.correct_options).card : ℚ)) *
            (spec.points / (spec.correct_options.card : ℚ))) + 1e-12))) ∧
    score_row [("Q1", ⟨"Q1", {"b","c","d"}, 4⟩)] "Q1" (some "B,C") = .ok (2.67 : ℚ) ∧
    score_row [("Q1", ⟨"Q1", {"b","c","d"}, 4⟩)] "Q1" (some "B,C,D,A") = .ok (2.67 : ℚ) ∧
    score_row [("Q1", ⟨"Q1", {"b","c","d"}, 4⟩)] "Q1" (some "A") = .ok (0 : ℚ) := by
  refine ⟨?_, by decide!, by decide!, by decide!⟩
  intro spec raw h2 hp
  have hm : spec.is_multiple = true := by
    simp only [QuestionSpec.is_multiple, decide_eq_true_eq]
    omega
  rw [score_row_eq, hm]
  simp only [Bool.true_eq_false, if_false]
  unfold score_multiple_select
  rw [if_neg (not_lt.mpr hp), if_neg (by omega),
    if_neg (not_lt.mpr (Finset.card_le_card Finset.inter_subset_right))]

/-- Witness for C1 at the concrete multi-select instance P = 4,
correct = {b,c,d}, selection "B,C". -/
theorem c1_multi_select_scoring_witness :
    (2 ≤ ({"b","c","d"} : Finset String).card ∧ (0 : ℚ) ≤ 4) ∧
    score_row [("Q1", ⟨"Q1", {"b","c","d"}, 4⟩)] "Q1" (some "B,C") =
      .ok (pyRound2 (max 0
        (((((tokenizeAnswers (some "B,C")).toFinset ∩ ({"b","c","d"} : Finset String)).card : ℚ) -
            (((tokenizeAnswers (some "B,C")).toFinset \ ({"b","c","d"} : Finset String)).card : ℚ)) *
          ((4 : ℚ) / (({"b","c","d"} : Finset String).card : ℚ))) + 1e-12)) :=
  ⟨⟨by decide, by norm_num⟩,
    c1_multi_select_scoring.1 ⟨"Q1", {"b","c","d"}, 4⟩ (some "B,C") (by decide) (by norm_num)⟩

/-- C5 counterexample: a zero-point single-select question returns its full
point value (0) for a selection different from the correct singleton, so
"score = full points iff selected equals the correct singleton" is false as
stated. -/
theorem c5_single_select_counterexample :
    ¬ (score_row [("Q1", (⟨"Q1", {"b"}, 0⟩ : QuestionSpec))] "Q1" (some "a") =
        .ok (⟨"Q1", {"b"}, (0 : ℚ)⟩ : QuestionSpec).points ↔
      (tokenizeAnswers (some "a")).toFinset =
        (⟨"Q1", {"b"}, (0 : ℚ)⟩ : QuestionSpec).correct_options) := by
  decide!

/-- C5 (amended): for every single-select question whose point value is
positive and has at most two decimal places, scoring returns full points iff
the selected set equals exactly the correct singleton and 0 otherwise; in
particular selecting more than one option yields 0. -/
theorem c5_single_select_scoring :
    ∀ (spec : QuestionSpec) (raw : Option String),
      spec.correct_options.card = 1 → 0 < spec.points → (spec.points * 100).den = 1 →
      (score_row [("Q1", spec)] "Q1" raw = .ok spec.points ↔
        (tokenizeAnswers raw).toFinset = spec.correct_options) ∧
      ((tokenizeAnswers raw).toFinset ≠ spec.correct_options →
        score_row [("Q1", spec)] "Q1" raw = .ok 0) ∧
      (2 ≤ (tokenizeAnswers raw).toFinset.card →
        score_row [("Q1", spec)] "Q1" raw = .ok 0) := by
  intro spec raw h1 hp hden
  have hm : spec.is_multiple = false := by
    simp only [QuestionSpec.is_multiple, h1]
    decide
  have hrow := score_row_eq spec raw
  rw [if_pos hm] at hrow
  by_cases heq : (tokenizeAnswers raw).toFinset = spec.correct_options
  · rw [if_pos heq, pyRound2_eq_self _ hden] at hrow
    refine ⟨⟨fun _ => heq, fun _ => hrow⟩, fun hne => absurd heq hne, fun hcard => ?_⟩
    rw [heq] at hcard
    omega
  · rw [if_neg heq, pyRound2_zero] at hrow
    refine ⟨⟨fun h => ?_, fun h => absurd h heq⟩, fun _ => hrow, fun _ => hrow⟩
    rw [hrow] at h
    exact absurd (Except.ok.inj h) (by intro h0; rw [← h0] at hp; exact lt_irrefl 0 hp)

/-- Witness for C5 (amended) at P = 4, correct = {b}, selection "B". -/
theorem c5_single_select_scoring_witness :
    (({"b"} : Finset String).card = 1 ∧ (0 : ℚ) < 4 ∧ ((4 : ℚ) * 100).den = 1) ∧
    (score_row [("Q1", (⟨"Q1", {"b"}, 4⟩ : QuestionSpec))] "Q1" (some "B") = .ok 4 ↔
      (tokenizeAnswers (some "B")).toFinset = ({"b"} : Finset String)) :=
  ⟨⟨by decide, by norm_num, by norm_num⟩,
    (c5_single_select_scoring ⟨"Q1", {"b"}, 4⟩ (some "B") (by decide) (by norm_num) (by norm_num)).1⟩

/-- C10: a missing (`None`/NaN) or blank selected-answers cell tokenizes to the
empty list, and scoring any question (nonempty correct set, nonnegative
points) against an empty token list returns 0 without error, on both the
single-select and the multi-select path. -/
theorem c10_blank_scoring :
    (tokenizeAnswers none = [] ∧ ∀ s : String, PyStr.strip s = "" → tokenizeAnswers (some s) = []) ∧
    (∀ (spec : QuestionSpec) (raw : Option String),
      spec.correct_options.Nonempty → 0 ≤ spec.points → tokenizeAnswers raw = [] →
      score_row [("Q1", spec)] "Q1" raw = .ok 0) := by
  constructor
  · refine ⟨rfl, fun s hs => ?_⟩
    simp only [tokenizeAnswers]
    rw [hs]
    simp
  · intro spec raw hne hp htok
    have hsel : (tokenizeAnswers raw).toFinset = ∅ := by rw [htok]; rfl
    have hrow := score_row_eq spec raw
    rw [hsel] at hrow
    by_cases hm : spec.is_multiple = false
    · have hcne : (∅ : Finset String) ≠ spec.correct_options := by
        intro h
        obtain ⟨a, ha⟩ := hne
        rw [← h] at ha
        exact absurd ha (Finset.not_mem_empty a)
      rw [if_pos hm, if_neg hcne, pyRound2_zero] at hrow
      exact hrow
    · have h2 : 2 ≤ spec.correct_options.card := by
        simp only [QuestionSpec.is_multiple] at hm
        rcases Nat.lt_or_ge 1 spec.correct_options.card with h | h
        · omega
        · exact absurd (by simp [Nat.not_lt.mpr h]) hm
      rw [if_neg hm] at hrow
      rw [hrow]
      unfold score_multiple_select
      rw [if_neg (not_lt.mpr hp), if_neg (by omega),
        if_neg (not_lt.mpr (Finset.card_le_card Finset.inter_subset_right))]
      simp only [Finset.empty_inter, Finset.empty_sdiff, Finset.card_empty, Nat.cast_zero,
        sub_self, zero_mul, max_self, zero_add]
      rw [pyRound2_epsilon]

/-- Witness for C10 at a multi-select spec and a blank cell. -/
theorem c10_blank_scoring_witness :
    (({"b","c"} : Finset String).Nonempty ∧ (0 : ℚ) ≤ 3 ∧ tokenizeAnswers (some " ") = []) ∧
    score_row [("Q1", (⟨"Q1", {"b","c"}, 3⟩ : QuestionSpec))] "Q1" (some " ") = .ok 0 :=
  ⟨⟨⟨"b", by decide⟩, by norm_num, by decide⟩,
    c10_blank_scoring.2 ⟨"Q1", {"b","c"}, 3⟩ (some " ") ⟨"b", by decide⟩ (by norm_num) (by decide)⟩

end Grade

namespace Misses

/-- C3: for a multi-correct-answer question, an extra incorrect option means
missed; no hits means missed; a partial hit count 0 < hits < total is
recorded in the histogram; and in the no-extras case the response is missed
exactly when hits/total plus the epsilon 1e-9 is strictly below the partial
threshold — so with threshold 1.0 a {B,C} selection against a 3-element
correct set is missed, and with threshold 0.5 it is not. -/
theorem c3_miss_analysis :
    (∀ (correct : Finset String) (th : ℚ) (raw : String) (selected : Finset String),
      2 ≤ correct.card →
      parse_student_response raw = (selected, none) →
      selected ≠ ∅ →
      ((selected \ correct ≠ ∅ → (analyzeResponse correct th raw).1 = true) ∧
       (selected \ correct = ∅ → (selected ∩ correct).card = 0 →
         (analyzeResponse correct th raw).1 = true) ∧
       (selected \ correct = ∅ → 0 < (selected ∩ correct).card →
         (selected ∩ correct).card < correct.card →
         (analyzeResponse correct th raw).2 = some (selected ∩ correct).card) ∧
       (selected \ correct = ∅ → 0 < (selected ∩ correct).card →
         ((analyzeResponse correct th raw).1 = true ↔
           ((selected ∩ correct).card : ℚ) / (correct.card : ℚ) + 1e-9 < th)))) ∧
    analyzeResponse {"B", "C", "D"} 1 "B,C" = (true, some 2) ∧
    analyzeResponse {"B", "C", "D"} (1/2) "B,C" = (false, some 2) ∧
    analyze_question ⟨"Q1", "Q1", {"B", "C", "D"}, "[B,C,D]"⟩ ["B,C"] 1 = (1, [2]) ∧
    analyze_question ⟨"Q1", "Q1", {"B", "C", "D"}, "[B,C,D]"⟩ ["B,C"] (1/2) = (0, [2]) := by
  refine ⟨?_, by decide!, by decide!, by decide!, by decide!⟩
  intro correct th raw selected h2 hparse hne
  have hres : analyzeResponse correct th raw =
      (if selected = ∅ then (true, none)
       else if correct.card = 1 then (decide (selected ≠ correct), none)
       else if selected \ correct ≠ ∅ then (true, none)
       else if (selected ∩ correct).card = 0 then (true, none)
       else
         (decide (((selected ∩ correct).card : ℚ) / (correct.card : ℚ) + 1e-9 < th),
           if (selected ∩ correct).card < correct.card then some (selected ∩ correct).card
           else none)) := by
    unfold analyzeResponse
    rw [hparse]
  rw [if_neg hne, if_neg (by omega)] at hres
  by_cases hex : selected \ correct ≠ ∅
  · rw [if_pos hex] at hres
    refine ⟨fun _ => by rw [hres], fun h0 => absurd h0 hex, fun h0 => absurd h0 hex,
      fun h0 => absurd h0 hex⟩
  · rw [if_neg hex] at hres
    by_cases hz : (selected ∩ correct).card = 0
    · rw [if_pos hz] at hres
      exact ⟨fun h => absurd h hex, fun _ _ => by rw [hres], fun _ h => by omega,
        fun _ h => by omega⟩
    · rw [if_neg hz] at hres
      refine ⟨fun h => absurd h hex, fun _ h0 => absurd h0 hz, fun _ _ hlt => ?_, fun _ _ => ?_⟩
      · rw [hres]
        simp [hlt]
      · rw [hres]
        simp

/-- Witness for C3 at correct set {B,C,D}, threshold 1, response "B,C". -/
theorem c3_miss_analysis_witness :
    (2 ≤ ({"B", "C", "D"} : Finset String).card ∧
      parse_student_response "B,C" = ({"B", "C"}, none) ∧
      ({"B", "C"} : Finset String) ≠ ∅) ∧
    (({"B", "C"} : Finset String) \ {"B", "C", "D"} = ∅ →
      0 < (({"B", "C"} : Finset String) ∩ {"B", "C", "D"}).card →
      ((analyzeResponse {"B", "C", "D"} 1 "B,C").1 = true ↔
        ((({"B", "C"} : Finset String) ∩ {"B", "C", "D"}).card : ℚ) /
          (({"B", "C", "D"} : Finset String).card : ℚ) + 1e-9 < 1)) :=
  ⟨⟨by decide, by decide, by decide⟩,
    (c3_miss_analysis.1 {"B", "C", "D"} 1 "B,C" {"B", "C"} (by decide) (by decide)
      (by decide)).2.2.2⟩

/-- C8 counterexample: grade.py's key loader accepts a correct-answer token
outside {A..E} ("X", tokenized to "x") without raising, contradicting the
claim that key loading rejects such tokens. -/
theorem c8_invalid_token_counterexample :
    Grade.load_answer_key [⟨"Q1", some "X", 1⟩] =
      .ok ([("Q1", ⟨"Q1", {"x"}, 1⟩)], 1, ["Q1"]) ∧
    ("x" : String) ∉ ["a", "b", "c", "d", "e"] ∧ ("X" : String) ∉ VALID_OPTIONS := by
  refine ⟨by decide!, by decide, by decide⟩

/-- C8 (amended): the miss analyzer's key parser rejects any correct-answer
field containing a token outside {A..E}, and conversely an accepted field
contains only tokens in {A..E}; grade.py's key loader performs no such
validation (see the counterexample). -/
theorem c8_analyzer_rejects_invalid_tokens :
    (∀ value : String, ((tokenize_options value).filter fun t => t ∉ VALID_OPTIONS) ≠ [] →
      parse_answer_value value = .error "answer contains invalid options") ∧
    (∀ (value : String) (s : Finset String), parse_answer_value value = .ok s →
      ∀ t ∈ tokenize_options value, t ∈ VALID_OPTIONS) := by
  constructor
  · intro value hbad
    have hne : tokenize_options value ≠ [] := by
      intro h
      rw [h] at hbad
      exact hbad rfl
    unfold parse_answer_value
    rw [if_neg hne, if_pos hbad]
  · intro value s hok t ht
    unfold parse_answer_value at hok
    by_cases hnil : tokenize_options value = []
    · rw [if_pos hnil] at hok
      exact absurd hok (by simp)
    · rw [if_neg hnil] at hok
      by_cases hbad : ((tokenize_options value).filter fun t => t ∉ VALID_OPTIONS) ≠ []
      · rw [if_pos hbad] at hok
        exact absurd hok (by simp)
      · have := List.filter_eq_nil_iff.mp (not_ne_iff.mp hbad) t ht
        simpa using this

/-- Witness for C8 (amended) at the values "X" (rejected) and "a,b" (accepted). -/
theorem c8_analyzer_rejects_invalid_tokens_witness :
    (((tokenize_options "X").filter fun t => t ∉ VALID_OPTIONS) ≠ [] ∧
      parse_answer_value "X" = .error "answer contains invalid options") ∧
    (parse_answer_value "a,b" = .ok {"A", "B"} ∧
      ∀ t ∈ tokenize_options "a,b", t ∈ VALID_OPTIONS) :=
  ⟨⟨by decide, c8_analyzer_rejects_invalid_tokens.1 "X" (by decide)⟩,
    ⟨by decide, c8_analyzer_rejects_invalid_tokens.2 "a,b" {"A", "B"} (by decide)⟩⟩

end Misses

namespace GiveBack

/-- Overwriting the selected answers of one question's rows preserves the
question id of every row. -/
theorem update_question_id (qid ans : String) (r : GBRow) :
    ((if r.question_id == qid then { r with selected_answers := ans } else r) : GBRow).question_id =
      r.question_id := by
  by_cases h : (r.question_id == qid) = true
  · rw [if_pos h]
  · rw [if_neg h]

/-- Overwriting the selected answers of one question's rows preserves the
student id of every row. -/
theorem update_student_id (qid ans : String) (r : GBRow) :
    ((if r.question_id == qid then { r with selected_answers := ans } else r) : GBRow).student_id =
      r.student_id := by
  by_cases h : (r.question_id == qid) = true
  · rw [if_pos h]
  · rw [if_neg h]

/-- Row and distinct-student counts of a question are invariant under any
row transformation that preserves question and student ids. -/
theorem touched_map_invariant (rows : List GBRow) (f : GBRow → GBRow)
    (hq : ∀ r, (f r).question_id = r.question_id)
    (hs : ∀ r, (f r).student_id = r.student_id) (q : String) :
    rowsTouched (rows.map f) q = rowsTouched rows q ∧
      studentsTouched (rows.map f) q = studentsTouched rows q := by
  have hfilter : (rows.map f).filter (fun r => r.question_id == q) =
      (rows.filter fun r => r.question_id == q).map f := by
    rw [List.filter_map]
    congr 1
    apply List.filter_congr
    intro r _
    simp [Function.comp, hq r]
  constructor
  · unfold rowsTouched
    rw [hfilter, List.length_map]
  · unfold studentsTouched
    rw [hfilter, List.map_map]
    congr 2
    apply List.map_congr_left
    intro r _
    exact hs r

/-- One give-back step, in closed form: when the question is in the lookup,
the rows are rewritten pointwise and the record carries the counts taken on
the incoming rows. -/
theorem applyGiveBackOne_eq (rows : List GBRow) (key : List GBKeyRow) (qid ans : String)
    (hans : answerLookup key qid = some ans) :
    applyGiveBackOne rows key qid =
      .ok (rows.map fun r =>
             if r.question_id == qid then { r with selected_answers := ans } else r,
           ⟨qid, rowsTouched rows qid, studentsTouched rows qid⟩) := by
  unfold applyGiveBackOne
  rw [hans]
  by_cases hpos : 0 < (rows.filter fun r => r.question_id == qid).length
  · rw [if_pos hpos]
    refine congrArg Except.ok (Prod.ext rfl ?_)
    show AdjustmentRecord.mk qid (rowsTouched rows qid)
        (studentsTouched (rows.map fun r =>
          if r.question_id == qid then { r with selected_answers := ans } else r) qid) =
      AdjustmentRecord.mk qid (rowsTouched rows qid) (studentsTouched rows qid)
    rw [(touched_map_invariant rows _ (update_question_id qid ans)
      (update_student_id qid ans) qid).2]
  · rw [if_neg hpos]
    have hnil : (rows.filter fun r => r.question_id == qid) = [] :=
      List.length_eq_zero.mp (Nat.eq_zero_of_not_pos hpos)
    have hfalse : ∀ r ∈ rows, (r.question_id == qid) = false := by
      intro r hr
      have := List.filter_eq_nil_iff.mp hnil r hr
      simpa using this
    have hmap : (rows.map fun r =>
        if r.question_id == qid then { r with selected_answers := ans } else r) = rows := by
      conv_rhs => rw [← List.map_id rows]
      apply List.map_congr_left
      intro r hr
      simp [hfalse r hr]
    rw [hmap]
    refine congrArg Except.ok (Prod.ext rfl ?_)
    show AdjustmentRecord.mk qid (rowsTouched rows qid) 0 =
      AdjustmentRecord.mk qid (rowsTouched rows qid) (studentsTouched rows qid)
    have hzero : studentsTouched rows qid = 0 := by
      unfold studentsTouched
      rw [hnil]
      rfl
    rw [hzero]

/-- Composing one give-back overwrite with the overwrite for the remaining
question ids gives the overwrite for the whole list. -/
theorem give_back_compose (key : List GBKeyRow) (qid : String) (rest : List String) (ans : String)
    (hans : answerLookup key qid = some ans) (r : GBRow) :
    (fun s : GBRow => if s.question_id ∈ rest then
        { s with selected_answers := (answerLookup key s.question_id).getD s.selected_answers }
      else s)
      ((fun s : GBRow => if s.question_id == qid then { s with selected_answers := ans } else s) r) =
    (if r.question_id ∈ qid :: rest then
      { r with selected_answers := (answerLookup key r.question_id).getD r.selected_answers }
    else r) := by
  by_cases hq : r.question_id = qid
  · by_cases hrest : qid ∈ rest
    · simp [hq, hrest, hans]
    · simp [hq, hrest, hans]
  · have hbeq : (r.question_id == qid) = false := by simp [hq]
    simp only [hbeq, Bool.false_eq_true, if_false, List.mem_cons, hq, false_or]

/-- C6: for every requested question id found in the key, `apply_give_backs`
overwrites the `selected_answers` field of exactly the rows whose
question_id matches with the key's correct-answer string verbatim, leaves
every other row and the student_id/question_id fields of every row
unchanged, writes no scores (no score field is ever touched), and records
the number of rows and distinct students touched per id — a question with
0 matching rows yields a (0,0) record, not an error. -/
theorem c6_give_back_adjustment :
    ∀ (rows : List GBRow) (key : List GBKeyRow) (qids : List String),
      (∀ qid ∈ qids, (answerLookup key qid).isSome) →
      apply_give_backs key rows qids =
        .ok (rows.map fun r =>
               if r.question_id ∈ qids then
                 { r with selected_answers := (answerLookup key r.question_id).getD r.selected_answers }
               else r,
             qids.map fun qid => ⟨qid, rowsTouched rows qid, studentsTouched rows qid⟩) := by
  intro rows key qids
  induction qids generalizing rows with
  | nil =>
    intro _
    simp [apply_give_backs]
  | cons qid rest ih =>
    intro hall
    obtain ⟨ans, hans⟩ := Option.isSome_iff_exists.mp (hall qid (List.mem_cons_self qid rest))
    have h1 := applyGiveBackOne_eq rows key qid ans hans
    have h2 := ih (rows.map fun r =>
        if r.question_id == qid then { r with selected_answers := ans } else r)
      (fun q hq => hall q (List.mem_cons_of_mem _ hq))
    simp only [apply_give_backs, h1, h2]
    have hmaps : ((rows.map fun r =>
        if r.question_id == qid then { r with selected_answers := ans } else r).map fun r =>
          if r.question_id ∈ rest then
            { r with selected_answers := (answerLookup key r.question_id).getD r.selected_answers }
          else r) =
        rows.map fun r =>
          if r.question_id ∈ qid :: rest then
            { r with selected_answers := (answerLookup key r.question_id).getD r.selected_answers }
          else r := by
      rw [List.map_map]
      apply List.map_congr_left
      intro r _
      exact give_back_compose key qid rest ans hans r
    have hrecs : (rest.map fun q =>
        (⟨q, rowsTouched (rows.map fun r =>
            if r.question_id == qid then { r with selected_answers := ans } else r) q,
          studentsTouched (rows.map fun r =>
            if r.question_id == qid then { r with selected_answers := ans } else r) q⟩ :
          AdjustmentRecord)) =
        rest.map fun q => ⟨q, rowsTouched rows q, studentsTouched rows q⟩ := by
      apply List.map_congr_left
      intro q _
      have := touched_map_invariant rows
        (fun r => if r.question_id == qid then { r with selected_answers := ans } else r)
        (update_question_id qid ans) (update_student_id qid ans) q
      rw [this.1, this.2]
    rw [hmaps, hrecs]
    rfl

/-- Witness for C6: a concrete give-back of Q4 over three rows. -/
theorem c6_give_back_adjustment_witness :
    (∀ qid ∈ (["Q4"] : List String),
      (answerLookup [⟨"Q4", "b,c,d", 4⟩] qid).isSome) ∧
    apply_give_backs [⟨"Q4", "b,c,d", 4⟩]
        [⟨"s1", "Q4", "a"⟩, ⟨"s2", "Q4", "b"⟩, ⟨"s3", "Q7", "c"⟩] ["Q4"] =
      .ok (([⟨"s1", "Q4", "a"⟩, ⟨"s2", "Q4", "b"⟩, ⟨"s3", "Q7", "c"⟩] : List GBRow).map fun r =>
             if r.question_id ∈ (["Q4"] : List String) then
               { r with selected_answers :=
                   (answerLookup [⟨"Q4", "b,c,d", 4⟩] r.question_id).getD r.selected_answers }
             else r,
           (["Q4"] : List String).map fun qid =>
             ⟨qid, rowsTouched [⟨"s1", "Q4", "a"⟩, ⟨"s2", "Q4", "b"⟩, ⟨"s3", "Q7", "c"⟩] qid,
               studentsTouched [⟨"s1", "Q4", "a"⟩, ⟨"s2", "Q4", "b"⟩, ⟨"s3", "Q7", "c"⟩] qid⟩) :=
  ⟨by decide, c6_give_back_adjustment
    [⟨"s1", "Q4", "a"⟩, ⟨"s2", "Q4", "b"⟩, ⟨"s3", "Q7", "c"⟩]
    [⟨"Q4", "b,c,d", 4⟩] ["Q4"] (by decide)⟩

theorem single_error_trace (e : String) :
    noWrites [GBEvent.errored e] ∧ raisedError [GBEvent.errored e] :=
  ⟨fun p hp => by simp at hp, ⟨e, by simp⟩⟩

/-- C7 (amended): the give-back flow raises an AdjustmentError and writes no
file when (a) the version label, after stripping leading and trailing
whitespace, is blank or contains characters outside [A-Za-z0-9_-], (b) a
target output file already exists, or (c) a requested question id is absent
from the answer key — in every case the error precedes any write, so no
partial artifact is produced. -/
theorem c7_give_back_failure_modes :
    ∀ (version give_back : String) (existing : List String)
      (results : List GBRow) (key : List GBKeyRow),
      ((PyStr.strip version = "" ∨
          ¬ ((PyStr.strip version).data.all fun c => c.isAlphanum || c == '_' || c == '-') = true) →
        noWrites (gbMain version give_back existing results key) ∧
          raisedError (gbMain version give_back existing results key)) ∧
      (∀ v qids, normalize_version version = .ok v →
        parse_question_list give_back = .ok qids →
        ((v ++ "_results.csv") ∈ existing ∨ (v ++ "_graded_report.csv") ∈ existing ∨
          (v ++ "_graded_report.xlsx") ∈ existing) →
        noWrites (gbMain version give_back existing results key) ∧
          raisedError (gbMain version give_back existing results key)) ∧
      (∀ qids qid, parse_question_list give_back = .ok qids → qid ∈ qids →
        qid ∉ key.map (fun r => PyStr.upper (PyStr.strip r.question)) →
        noWrites (gbMain version give_back existing results key) ∧
          raisedError (gbMain version give_back existing results key)) := by
  intro version give_back existing results key
  refine ⟨?_, ?_, ?_⟩
  · -- invalid version label
    intro hcond
    rcases hcond with hblank | hbad
    · have herr : normalize_version version = .error "version label cannot be blank" := by
        unfold normalize_version
        rw [if_pos hblank]
      have htrace : gbMain version give_back existing results key =
          [.errored "version label cannot be blank"] := by
        unfold gbMain
        rw [herr]
      rw [htrace]
      exact single_error_trace _
    · have hne : ¬ PyStr.strip version = "" := by
        intro h
        rw [h] at hbad
        exact hbad rfl
      have herr : normalize_version version =
          .error "version label may only contain letters, numbers, underscores, or hyphens" := by
        unfold normalize_version
        rw [if_neg hne, if_neg hbad]
      have htrace : gbMain version give_back existing results key =
          [.errored "version label may only contain letters, numbers, underscores, or hyphens"] := by
        unfold gbMain
        rw [herr]
      rw [htrace]
      exact single_error_trace _
  · -- a target output file already exists
    intro v qids hver hqids hpath
    have hconf : ((([v ++ "_results.csv", v ++ "_graded_report.csv", v ++ "_graded_report.xlsx"] :
        List String).filter fun p => existing.contains p)) ≠ [] := by
      have hmem : ∃ p ∈ ([v ++ "_results.csv", v ++ "_graded_report.csv",
          v ++ "_graded_report.xlsx"] : List String), p ∈ existing := by
        rcases hpath with h | h | h
        · exact ⟨v ++ "_results.csv", by simp, h⟩
        · exact ⟨v ++ "_graded_report.csv", by simp, h⟩
        · exact ⟨v ++ "_graded_report.xlsx", by simp, h⟩
      obtain ⟨p, hp, hpe⟩ := hmem
      have : p ∈ (([v ++ "_results.csv", v ++ "_graded_report.csv", v ++ "_graded_report.xlsx"] :
          List String).filter fun p => existing.contains p) :=
        List.mem_filter.mpr ⟨hp, by simpa [List.elem_iff] using hpe⟩
      exact List.ne_nil_of_mem this
    have houts : ensure_outputs_available
        [v ++ "_results.csv", v ++ "_graded_report.csv", v ++ "_graded_report.xlsx"] existing =
        .error "refusing to overwrite existing files" := by
      unfold ensure_outputs_available
      rw [if_neg hconf]
    have htrace : gbMain version give_back existing results key =
        [.errored "refusing to overwrite existing files"] := by
      simp only [gbMain, hver, hqids, houts]
    rw [htrace]
    exact single_error_trace _
  · -- a requested question id is absent from the answer key
    intro qids qid hqids hqid hnotin
    cases hver : normalize_version version with
    | error e =>
      have htrace : gbMain version give_back existing results key = [.errored e] := by
        unfold gbMain
        rw [hver]
      rw [htrace]
      exact single_error_trace _
    | ok v =>
      cases houts : ensure_outputs_available
          [v ++ "_results.csv", v ++ "_graded_report.csv", v ++ "_graded_report.xlsx"] existing with
      | error e =>
        have htrace : gbMain version give_back existing results key = [.errored e] := by
          simp only [gbMain, hver, hqids, houts]
        rw [htrace]
        exact single_error_trace _
      | ok u =>
        cases hkey : load_answer_key key with
        | error e =>
          have htrace : gbMain version give_back existing results key = [.errored e] := by
            simp only [gbMain, hver, hqids, houts, hkey]
          rw [htrace]
          exact single_error_trace _
        | ok keyRows =>
          have hkeyq : keyRows.map (fun r => r.question) =
              key.map fun r => PyStr.upper (PyStr.strip r.question) := by
            unfold load_answer_key at hkey
            by_cases hnd : ((key.map fun r =>
                ({ r with question := PyStr.upper (PyStr.strip r.question) } : GBKeyRow)).map
                  fun r => r.question).Nodup
            · rw [if_pos hnd] at hkey
              have := Except.ok.inj hkey
              rw [← this, List.map_map]
              rfl
            · rw [if_neg hnd] at hkey
              exact absurd hkey (by simp)
          have hmiss : ensure_questions_exist qids keyRows =
              .error "questions not found in the answer key" := by
            unfold ensure_questions_exist
            have hqmem : qid ∈ qids.filter fun q => !((keyRows.map fun r => r.question).contains q) := by
              refine List.mem_filter.mpr ⟨hqid, ?_⟩
              rw [hkeyq]
              simp only [Bool.not_eq_eq_eq_not, Bool.not_true]
              rw [← Bool.not_eq_true]
              intro hc
              exact hnotin (by simpa [List.elem_iff] using hc)
            rw [if_neg (List.ne_nil_of_mem hqmem)]
          have htrace : gbMain version give_back existing results key =
              [.errored "questions not found in the answer key"] := by
            simp only [gbMain, hver, hqids, houts, hkey, hmiss]
          rw [htrace]
          exact single_error_trace _

/-- C7 counterexample: the version label " v1 " contains characters (spaces)
outside [A-Za-z0-9_-], yet the flow does not fail — `normalize_version`
strips the label first and the run completes, writing all three outputs. -/
theorem c7_version_whitespace_counterexample :
    (∃ c ∈ (" v1 " : String).data, ¬ (c.isAlphanum || c == '_' || c == '-') = true) ∧
    gbMain " v1 " "Q1" [] [⟨"s1", "Q1", "a"⟩] [⟨"Q1", "b", 1⟩] =
      [.wrote "v1_results.csv", .wrote "v1_graded_report.csv", .wrote "v1_graded_report.xlsx"] := by
  refine ⟨⟨' ', by decide, by decide⟩, by decide!⟩

/-- Witness for C7 (amended): one concrete run per failure mode — a bad
label, a pre-existing target file, and a question id missing from the key. -/
theorem c7_give_back_failure_modes_witness :
    ((PyStr.strip "bad label!" = "" ∨
        ¬ ((PyStr.strip "bad label!").data.all fun c => c.isAlphanum || c == '_' || c == '-') = true) ∧
      noWrites (gbMain "bad label!" "Q1" [] [] []) ∧
        raisedError (gbMain "bad label!" "Q1" [] [] [])) ∧
    ((normalize_version "v1" = .ok "v1" ∧ parse_question_list "Q1" = .ok ["Q1"] ∧
        ("v1_results.csv" : String) ∈ (["v1_results.csv"] : List String)) ∧
      noWrites (gbMain "v1" "Q1" ["v1_results.csv"] [] []) ∧
        raisedError (gbMain "v1" "Q1" ["v1_results.csv"] [] [])) ∧
    ((parse_question_list "Q9" = .ok ["Q9"] ∧ ("Q9" : String) ∈ (["Q9"] : List String) ∧
        ("Q9" : String) ∉ ([⟨"Q1", "b", 1⟩] : List GBKeyRow).map
          (fun r => PyStr.upper (PyStr.strip r.question))) ∧
      noWrites (gbMain "v2" "Q9" [] [] [⟨"Q1", "b", 1⟩]) ∧
        raisedError (gbMain "v2" "Q9" [] [] [⟨"Q1", "b", 1⟩])) :=
  ⟨⟨Or.inr (by decide), (c7_give_back_failure_modes "bad label!" "Q1" [] [] []).1 (Or.inr (by decide))⟩,
    ⟨⟨by decide, by decide, by decide⟩,
      (c7_give_back_failure_modes "v1" "Q1" ["v1_results.csv"] [] []).2.1 "v1" ["Q1"] (by decide) (by decide)
        (Or.inl (by decide))⟩,
    ⟨⟨by decide, by decide, by decide⟩,
      (c7_give_back_failure_modes "v2" "Q9" [] [] [⟨"Q1", "b", 1⟩]).2.2 ["Q9"] "Q9" (by decide) (by decide)
        (by decide)⟩⟩

end GiveBack

namespace Sheet

/-- Filtering `range rows` by `· < k` and mapping is mapping over `range (min k rows)`. -/
theorem filterMap_range_lt {α : Type} (rows k : ℕ) (g : ℕ → α) :
    ((List.range rows).filterMap fun ri => if ri < k then some (g ri) else none) =
      (List.range (min k rows)).map g := by
  induction rows with
  | zero => simp
  | succ n ih =>
    rw [List.range_succ, List.filterMap_append, ih]
    by_cases h : n < k
    · have hmin : min k (n + 1) = min k n + 1 := by omega
      rw [hmin, List.range_succ, List.map_append]
      have hmn : min k n = n := by omega
      simp [h, hmn]
    · have hmin : min k (n + 1) = min k n := by omega
      simp [hmin, h]

/-- The column-major nested grid loop of `build_question_layout`, as a single
map over the placed question indices. -/
theorem question_grid_blocks {α : Type} (f : ℕ → ℕ → ℕ → α) (c rows q : ℕ) (hrows : 0 < rows) :
    ((List.range c).flatMap fun ci =>
      (List.range rows).filterMap fun ri =>
        if ci * rows + ri + 1 ≤ q then some (f ci ri (ci * rows + ri + 1)) else none) =
      (List.range (min q (c * rows))).map fun n => f (n / rows) (n % rows) (n + 1) := by
  induction c with
  | zero => simp
  | succ k ih =>
    rw [List.range_succ, List.flatMap_append, ih]
    simp only [List.flatMap_cons, List.flatMap_nil, List.append_nil]
    have hlast : ((List.range rows).filterMap fun ri =>
        if k * rows + ri + 1 ≤ q then some (f k ri (k * rows + ri + 1)) else none) =
        (List.range (min (q - k * rows) rows)).map fun ri => f k ri (k * rows + ri + 1) := by
      rw [← filterMap_range_lt rows (q - k * rows) fun ri => f k ri (k * rows + ri + 1)]
      apply List.filterMap_congr
      intro ri _
      by_cases h : k * rows + ri + 1 ≤ q
      · rw [if_pos h, if_pos (by omega)]
      · rw [if_neg h, if_neg (by omega)]
    rw [hlast]
    have hsplit : min q ((k + 1) * rows) = min q (k * rows) + min (q - k * rows) rows := by
      have : (k + 1) * rows = k * rows + rows := by ring
      omega
    rw [hsplit, List.range_add, List.map_append, List.map_map]
    congr 1
    apply List.map_congr_left
    intro ri hri
    have hri' : ri < min (q - k * rows) rows := List.mem_range.mp hri
    have h1 : min q (k * rows) + ri = k * rows + ri := by omega
    rw [Function.comp_apply, h1]
    have hdiv : (k * rows + ri) / rows = k := by
      rw [Nat.add_comm, Nat.add_mul_div_right _ _ hrows, Nat.div_eq_of_lt (by omega)]
      omega
    have hmod : (k * rows + ri) % rows = ri := by
      rw [Nat.add_comm, Nat.add_mul_mod_self_right, Nat.mod_eq_of_lt (by omega)]
    rw [hdiv, hmod]

/-- Postcondition of a successful `spacing_for_columns`. -/
theorem spacing_for_columns_spec (s : LayoutSettings) (qbw aw : ℚ) (c : ℕ) (sp : ℚ)
    (hqcs : 0 ≤ s.question_column_spacing) (hmin : 0 ≤ s.question_column_spacing_min)
    (hc : 1 ≤ c) (h : spacing_for_columns s qbw aw c = some sp) :
    0 ≤ sp ∧ (c : ℚ) * qbw + ((c : ℚ) - 1) * sp ≤ aw := by
  unfold spacing_for_columns at h
  by_cases h1 : c = 1
  · rw [if_pos h1] at h
    by_cases h2 : qbw ≤ aw
    · rw [if_pos h2] at h
      obtain rfl : (0 : ℚ) = sp := Option.some.inj h
      subst h1
      constructor
      · exact le_refl 0
      · push_cast
        linarith
    · rw [if_neg h2] at h
      exact absurd h (by simp)
  · rw [if_neg h1] at h
    by_cases h2 : aw < (c : ℚ) * qbw
    · rw [if_pos h2] at h
      exact absurd h (by simp)
    · rw [if_neg h2] at h
      by_cases h3 : (aw - (c : ℚ) * qbw) / ((c : ℚ) - 1) < s.question_column_spacing_min
      · rw [if_pos h3] at h
        exact absurd h (by simp)
      · rw [if_neg h3] at h
        have hsp := Option.some.inj h
        have hc2 : 2 ≤ c := by omega
        have hcpos : (0 : ℚ) < (c : ℚ) - 1 := by
          have : (2 : ℚ) ≤ (c : ℚ) := by exact_mod_cast hc2
          linarith
        push_neg at h3
        constructor
        · rw [← hsp]
          exact le_min hqcs (le_trans hmin h3)
        · have hle : sp ≤ (aw - (c : ℚ) * qbw) / ((c : ℚ) - 1) := by
            rw [← hsp]
            exact min_le_right _ _
          have := (div_le_iff₀ hcpos).mp (le_refl ((aw - (c : ℚ) * qbw) / ((c : ℚ) - 1)))
          have hmul : ((c : ℚ) - 1) * sp ≤ aw - (c : ℚ) * qbw := by
            calc ((c : ℚ) - 1) * sp ≤ ((c : ℚ) - 1) * ((aw - (c : ℚ) * qbw) / ((c : ℚ) - 1)) := by
                  exact mul_le_mul_of_nonneg_left hle (le_of_lt hcpos)
              _ = aw - (c : ℚ) * qbw := by
                  field_simp
          linarith

/-- Postcondition of a successful column search: the chosen column count
satisfies both constraints, and every larger count up to the search start
fails one of them. -/
theorem search_columns_spec (s : LayoutSettings) (q : ℕ) (qbw aw : ℚ) (mr : ℕ) :
    ∀ c0 c rows sp, search_columns s q qbw aw mr c0 = some (c, rows, sp) →
      1 ≤ c ∧ c ≤ c0 ∧ rows = (q + c - 1) / c ∧ rows ≤ mr ∧
      spacing_for_columns s qbw aw c = some sp ∧
      ∀ c', c < c' → c' ≤ c0 →
        spacing_for_columns s qbw aw c' = none ∨ mr < (q + c' - 1) / c' := by
  intro c0
  induction c0 with
  | zero => intro c rows sp h; exact absurd h (by simp [search_columns])
  | succ k ih =>
    intro c rows sp h
    unfold search_columns at h
    cases hsp : spacing_for_columns s qbw aw (k + 1) with
    | none =>
      simp only [hsp] at h
      obtain ⟨h1, h2, h3, h4, h5, h6⟩ := ih c rows sp h
      refine ⟨h1, by omega, h3, h4, h5, ?_⟩
      intro c' hlt hle
      by_cases hck : c' = k + 1
      · subst hck
        exact Or.inl hsp
      · exact h6 c' hlt (by omega)
    | some spacing =>
      simp only [hsp] at h
      by_cases hrows : (q + (k + 1) - 1) / (k + 1) ≤ mr
      · rw [if_pos hrows] at h
        have h' := Option.some.inj h
        rw [Prod.mk.injEq, Prod.mk.injEq] at h'
        obtain ⟨rfl, rfl, rfl⟩ := h'
        refine ⟨by omega, le_refl _, rfl, hrows, hsp, ?_⟩
        intro c' hlt hle
        omega
      · rw [if_neg hrows] at h
        obtain ⟨h1, h2, h3, h4, h5, h6⟩ := ih c rows sp h
        refine ⟨h1, by omega, h3, h4, h5, ?_⟩
        intro c' hlt hle
        by_cases hck : c' = k + 1
        · subst hck
          exact Or.inr (by omega)
        · exact h6 c' hlt (by omega)

/-- Postcondition of a successful `build_question_layout`: the vertical guard
holds, the chosen grid satisfies both packing constraints, no larger column
count up to the search start satisfies them, the grid covers all questions,
and the block list is the column-major enumeration of questions 1..q. -/
theorem build_question_layout_spec (q : ℕ) (area_top start_x aw : ℚ) (s : LayoutSettings)
    (blocks : List QuestionBlock) (cols rows : ℕ) (sp : ℚ)
    (h : build_question_layout q area_top start_x aw s = .ok (blocks, cols, rows, sp)) :
    s.question_row_height < area_top - (s.margin + s.bubble_radius) ∧
    1 ≤ cols ∧
    cols ≤ min q (max_columns_by_width aw (question_block_width s) s.question_column_spacing_min) ∧
    rows = (q + cols - 1) / cols ∧
    rows ≤ max_rows_by_height (area_top - (s.margin + s.bubble_radius)) s.question_row_height ∧
    spacing_for_columns s (question_block_width s) aw cols = some sp ∧
    (∀ c', cols < c' →
      c' ≤ min q (max_columns_by_width aw (question_block_width s) s.question_column_spacing_min) →
      spacing_for_columns s (question_block_width s) aw c' = none ∨
        max_rows_by_height (area_top - (s.margin + s.bubble_radius)) s.question_row_height <
          (q + c' - 1) / c') ∧
    0 < rows ∧ q ≤ cols * rows ∧
    blocks = (List.range q).map fun n =>
      mkQuestionBlock area_top start_x (question_block_width s) sp s (n / rows) (n % rows) (n + 1) := by
  unfold build_question_layout at h
  by_cases hah : area_top - (s.margin + s.bubble_radius) ≤ s.question_row_height
  · rw [if_pos hah] at h
    exact absurd h (by simp)
  · rw [if_neg hah] at h
    push_neg at hah
    cases hsearch : search_columns s q (question_block_width s) aw
        (max_rows_by_height (area_top - (s.margin + s.bubble_radius)) s.question_row_height)
        (min q (max_columns_by_width aw (question_block_width s) s.question_column_spacing_min)) with
    | none =>
      simp only [hsearch] at h
      exact absurd h (by simp)
    | some t =>
      obtain ⟨c0, r0, sp0⟩ := t
      simp only [hsearch] at h
      have h' := Except.ok.inj h
      rw [Prod.mk.injEq, Prod.mk.injEq, Prod.mk.injEq] at h'
      obtain ⟨hblocks, rfl, rfl, rfl⟩ := h'
      obtain ⟨hc1, hcle, hrowseq, hrowsle, hspc, hmax⟩ :=
        search_columns_spec s q (question_block_width s) aw _ _ c0 r0 sp0 hsearch
      have hq1 : 1 ≤ q := le_trans hc1 (le_trans hcle (min_le_left _ _))
      have hcd := Nat.div_add_mod (q + c0 - 1) c0
      have hmod := Nat.mod_lt (q + c0 - 1) (show 0 < c0 by omega)
      have hrpos : 0 < r0 := by
        rcases Nat.eq_zero_or_pos r0 with h0 | h0
        · rw [hrowseq] at h0
          rw [h0, Nat.mul_zero] at hcd
          omega
        · exact h0
      have hqcr : q ≤ c0 * r0 := by
        rw [hrowseq]
        omega
      refine ⟨hah, hc1, hcle, hrowseq, hrowsle, hspc, hmax, hrpos, hqcr, ?_⟩
      rw [← hblocks, question_grid_blocks _ _ _ _ hrpos, min_eq_left hqcr]

/-- Bounds of the bubbles of one placed question block: radius, horizontal
extent within the available width, and the common row center height. -/
theorem mkQuestionBlock_bubbles (area_top start_x sp aw : ℚ) (s : LayoutSettings)
    (ci ri n cols : ℕ)
    (hrad : 0 ≤ s.bubble_radius) (hlw : 0 ≤ s.question_label_width)
    (hstep : 0 ≤ s.option_step) (hsp : 0 ≤ sp) (hci : ci < cols)
    (hwidth : (cols : ℚ) * question_block_width s + ((cols : ℚ) - 1) * sp ≤ aw) :
    ∀ b ∈ (mkQuestionBlock area_top start_x (question_block_width s) sp s ci ri n).bubbles,
      b.radius = s.bubble_radius ∧
      start_x + s.question_label_width + s.bubble_radius ≤ b.x ∧
      b.x + s.bubble_radius ≤ start_x + aw ∧
      b.y = area_top - (ri : ℚ) * s.question_row_height := by
  intro b hb
  have hqbw : question_block_width s =
      s.question_label_width + 2 * s.bubble_radius + s.option_step * 4 := by
    unfold question_block_width OPTIONS
    norm_num
  have hqbw0 : 0 ≤ question_block_width s := by rw [hqbw]; linarith
  have hcast : (ci : ℚ) ≤ (cols : ℚ) - 1 := by
    have : ((ci : ℚ) + 1) ≤ (cols : ℚ) := by exact_mod_cast hci
    linarith
  have hmono : (ci : ℚ) * (question_block_width s + sp) ≤
      ((cols : ℚ) - 1) * (question_block_width s + sp) :=
    mul_le_mul_of_nonneg_right hcast (by linarith)
  have hring : ((cols : ℚ) - 1) * (question_block_width s + sp) + question_block_width s =
      (cols : ℚ) * question_block_width s + ((cols : ℚ) - 1) * sp := by ring
  have hcix : 0 ≤ (ci : ℚ) * (question_block_width s + sp) := by
    have : (0 : ℚ) ≤ (ci : ℚ) := Nat.cast_nonneg ci
    nlinarith
  unfold mkQuestionBlock at hb
  obtain ⟨oi, hoi, rfl⟩ := List.mem_map.mp hb
  have hoik : oi.1 ≤ 4 := by
    have : OPTIONS.enum = [(0, "A"), (1, "B"), (2, "C"), (3, "D"), (4, "E")] := rfl
    rw [this] at hoi
    fin_cases hoi <;> norm_num
  have hk0 : (0 : ℚ) ≤ (oi.1 : ℚ) := Nat.cast_nonneg _
  have hk4 : (oi.1 : ℚ) ≤ 4 := by exact_mod_cast hoik
  have hks : (oi.1 : ℚ) * s.option_step ≤ 4 * s.option_step :=
    mul_le_mul_of_nonneg_right hk4 hstep
  have hks0 : 0 ≤ (oi.1 : ℚ) * s.option_step := mul_nonneg hk0 hstep
  refine ⟨rfl, ?_, ?_, rfl⟩
  · show start_x + s.question_label_width + s.bubble_radius ≤
      start_x + (ci : ℚ) * (question_block_width s + sp) + s.question_label_width +
        s.bubble_radius + (oi.1 : ℚ) * s.option_step
    linarith
  · show start_x + (ci : ℚ) * (question_block_width s + sp) + s.question_label_width +
        s.bubble_radius + (oi.1 : ℚ) * s.option_step + s.bubble_radius ≤ start_x + aw
    have hblock : s.question_label_width + s.bubble_radius + (oi.1 : ℚ) * s.option_step +
        s.bubble_radius ≤ question_block_width s := by
      rw [hqbw]
      linarith
    linarith

/-- Postcondition of a successful vertical student-id layout: the bottom
center height, and bounds for every bubble. -/
theorem build_vertical_spec (L : ℕ) (al uw top : ℚ) (s : LayoutSettings)
    (cols : List IdColumn) (bottom : ℚ)
    (_hrad : 0 ≤ s.bubble_radius) (hcst : 0 ≤ s.id_column_step) (hvst : 0 ≤ s.id_vertical_step)
    (h : build_student_id_layout_vertical L al uw top s = .ok (cols, bottom)) :
    bottom = top - 9 * s.id_vertical_step ∧ bottom ≤ top ∧
    ∀ col ∈ cols, ∀ b ∈ col.bubbles,
      b.radius = s.bubble_radius ∧ al + s.bubble_radius ≤ b.x ∧
      b.x + s.bubble_radius ≤ al + uw ∧ bottom ≤ b.y ∧ b.y ≤ top := by
  unfold build_student_id_layout_vertical at h
  by_cases hfit : uw < ((L : ℚ) - 1) * s.id_column_step + 2 * s.bubble_radius
  · rw [if_pos hfit] at h
    exact absurd h (by simp)
  · rw [if_neg hfit] at h
    push_neg at hfit
    have h' := Except.ok.inj h
    rw [Prod.mk.injEq] at h'
    obtain ⟨hcols, hbot⟩ := h'
    refine ⟨hbot.symm, by rw [← hbot]; nlinarith, ?_⟩
    intro col hcol b hb
    rw [← hcols] at hcol
    obtain ⟨j, hj, rfl⟩ := List.mem_map.mp hcol
    have hjL : j < L := List.mem_range.mp hj
    obtain ⟨v, hv, rfl⟩ := List.mem_map.mp hb
    have hv10 : v < 10 := List.mem_range.mp hv
    have hL1 : ((j : ℚ) + 1) ≤ (L : ℚ) := by exact_mod_cast hjL
    have hj0 : (0 : ℚ) ≤ (j : ℚ) := Nat.cast_nonneg j
    have hjs : (j : ℚ) * s.id_column_step ≤ ((L : ℚ) - 1) * s.id_column_step :=
      mul_le_mul_of_nonneg_right (by linarith) hcst
    have hjs0 : 0 ≤ (j : ℚ) * s.id_column_step := mul_nonneg hj0 hcst
    have hv0 : (0 : ℚ) ≤ (v : ℚ) := Nat.cast_nonneg v
    have hv9 : (v : ℚ) ≤ 9 := by exact_mod_cast Nat.lt_succ_iff.mp hv10
    have hvs : (v : ℚ) * s.id_vertical_step ≤ 9 * s.id_vertical_step :=
      mul_le_mul_of_nonneg_right hv9 hvst
    have hvs0 : 0 ≤ (v : ℚ) * s.id_vertical_step := mul_nonneg hv0 hvst
    refine ⟨rfl, ?_, ?_, ?_, ?_⟩
    · show al + s.bubble_radius ≤
        al + (uw - (((L : ℚ) - 1) * s.id_column_step + 2 * s.bubble_radius)) / 2 +
          s.bubble_radius + (j : ℚ) * s.id_column_step
      have : 0 ≤ (uw - (((L : ℚ) - 1) * s.id_column_step + 2 * s.bubble_radius)) / 2 := by
        linarith
      linarith
    · show al + (uw - (((L : ℚ) - 1) * s.id_column_step + 2 * s.bubble_radius)) / 2 +
          s.bubble_radius + (j : ℚ) * s.id_column_step + s.bubble_radius ≤ al + uw
      linarith
    · show bottom ≤ top - (v : ℚ) * s.id_vertical_step
      rw [← hbot]
      linarith
    · show top - (v : ℚ) * s.id_vertical_step ≤ top
      linarith

/-- Postcondition of a successful horizontal student-id layout. -/
theorem build_horizontal_spec (L : ℕ) (al uw top : ℚ) (s : LayoutSettings)
    (cols : List IdColumn) (bottom : ℚ)
    (_hrad : 0 ≤ s.bubble_radius) (hcst : 0 ≤ s.id_column_step) (hvst : 0 ≤ s.id_vertical_step)
    (h : build_student_id_layout_horizontal L al uw top s = .ok (cols, bottom)) :
    bottom = top - max 0 ((L : ℚ) - 1) * s.id_vertical_step ∧ bottom ≤ top ∧
    ∀ col ∈ cols, ∀ b ∈ col.bubbles,
      b.radius = s.bubble_radius ∧ al + s.bubble_radius ≤ b.x ∧
      b.x + s.bubble_radius ≤ al + uw ∧ bottom ≤ b.y ∧ b.y ≤ top := by
  unfold build_student_id_layout_horizontal at h
  by_cases hfit : uw < (((10 : ℕ) : ℚ) - 1) * s.id_column_step + 2 * s.bubble_radius
  · rw [if_pos hfit] at h
    exact absurd h (by simp)
  · rw [if_neg hfit] at h
    push_neg at hfit
    have h' := Except.ok.inj h
    rw [Prod.mk.injEq] at h'
    obtain ⟨hcols, hbot⟩ := h'
    have hmax0 : 0 ≤ max 0 ((L : ℚ) - 1) := le_max_left 0 _
    refine ⟨hbot.symm, by rw [← hbot]; nlinarith, ?_⟩
    intro col hcol b hb
    rw [← hcols] at hcol
    obtain ⟨j, hj, rfl⟩ := List.mem_map.mp hcol
    have hjL : j < L := List.mem_range.mp hj
    obtain ⟨v, hv, rfl⟩ := List.mem_map.mp hb
    have hv10 : v < 10 := List.mem_range.mp hv
    have hL1 : ((j : ℚ) + 1) ≤ (L : ℚ) := by exact_mod_cast hjL
    have hj0 : (0 : ℚ) ≤ (j : ℚ) := Nat.cast_nonneg j
    have hjmax : (j : ℚ) ≤ max 0 ((L : ℚ) - 1) := le_max_of_le_right (by linarith)
    have hjs : (j : ℚ) * s.id_vertical_step ≤ max 0 ((L : ℚ) - 1) * s.id_vertical_step :=
      mul_le_mul_of_nonneg_right hjmax hvst
    have hjs0 : 0 ≤ (j : ℚ) * s.id_vertical_step := mul_nonneg hj0 hvst
    have hv0 : (0 : ℚ) ≤ (v : ℚ) := Nat.cast_nonneg v
    have hv9 : (v : ℚ) ≤ 9 := by exact_mod_cast Nat.lt_succ_iff.mp hv10
    have hvs : (v : ℚ) * s.id_column_step ≤ 9 * s.id_column_step :=
      mul_le_mul_of_nonneg_right hv9 hcst
    have hvs0 : 0 ≤ (v : ℚ) * s.id_column_step := mul_nonneg hv0 hcst
    have hnum : (((10 : ℕ) : ℚ) - 1) = 9 := by norm_num
    rw [hnum] at hfit
    refine ⟨rfl, ?_, ?_, ?_, ?_⟩
    · show al + s.bubble_radius ≤
        al + (uw - ((((10 : ℕ) : ℚ)- 1) * s.id_column_step + 2 * s.bubble_radius)) / 2 +
          s.bubble_radius + (v : ℚ) * s.id_column_step
      have : 0 ≤ (uw - ((((10 : ℕ) : ℚ) - 1) * s.id_column_step + 2 * s.bubble_radius)) / 2 := by
        push_cast
        linarith
      linarith
    · show al + (uw - ((((10 : ℕ) : ℚ) - 1) * s.id_column_step + 2 * s.bubble_radius)) / 2 +
          s.bubble_radius + (v : ℚ) * s.id_column_step + s.bubble_radius ≤ al + uw
      push_cast
      linarith
    · show bottom ≤ top - (j : ℚ) * s.id_vertical_step
      rw [← hbot]
      linarith
    · show top - (j : ℚ) * s.id_vertical_step ≤ top
      linarith

/-- A bubble strictly inside the safe horizontal band and the vertical margin
band is inside the content box and clear of every marker whose inflated
rectangle ends at (or before) the band's edges. -/
theorem bubble_ok (margin cl w h safe_left safe_right r : ℚ) (markers : List Marker)
    (b : ℚ × ℚ × ℚ)
    (hm_sl : margin ≤ safe_left) (hsr_m : safe_right ≤ w - margin) (hr : 0 < r)
    (hmk : ∀ m ∈ markers, m.x + m.size + cl ≤ safe_left ∨ safe_right ≤ m.x - cl)
    (hrad : b.2.2 = r)
    (hx1 : safe_left + r ≤ b.1) (hx2 : b.1 + r ≤ safe_right)
    (hy1 : margin + r ≤ b.2.1) (hy2 : b.2.1 + r ≤ h - margin) :
    inContentBounds margin w h b ∧ ∀ m ∈ markers, clearOfMarker cl m b := by
  constructor
  · unfold inContentBounds
    rw [hrad]
    refine ⟨by linarith, by linarith, by linarith, by linarith⟩
  · intro m hm
    unfold clearOfMarker
    rcases hmk m hm with hedge | hedge
    · rintro ⟨h1, h2, h3, h4⟩
      linarith
    · rintro ⟨h1, h2, h3, h4⟩
      linarith

/-- Bounds for every bubble of a solved sheet stage: given the student-id
section's bubble bounds and a successful question layout below it, every
bubble (question or id) has the standard radius, lies horizontally within
the safe band, and vertically within the margin band. -/
theorem stage_bubble_bounds (s : LayoutSettings) (q : ℕ)
    (safe_left usable idtop hpage : ℚ)
    (sidcols : List IdColumn) (bottom : ℚ) (blocks : List QuestionBlock)
    (cols rows : ℕ) (sp : ℚ)
    (hrad : 0 ≤ s.bubble_radius) (hlw : 0 ≤ s.question_label_width)
    (hstep : 0 ≤ s.option_step) (hrh : 0 < s.question_row_height)
    (hqcs : 0 ≤ s.question_column_spacing) (hmin : 0 ≤ s.question_column_spacing_min)
    (hgap : 0 ≤ s.section_gap)
    (hbot_top : bottom ≤ idtop)
    (hid : ∀ col ∈ sidcols, ∀ b ∈ col.bubbles,
      b.radius = s.bubble_radius ∧ safe_left + s.bubble_radius ≤ b.x ∧
      b.x + s.bubble_radius ≤ safe_left + usable ∧ bottom ≤ b.y ∧ b.y ≤ idtop)
    (hq : build_question_layout q (bottom - s.bubble_radius - s.section_gap)
        safe_left usable s = .ok (blocks, cols, rows, sp))
    (htop : idtop + s.bubble_radius ≤ hpage - s.margin) :
    ∀ b ∈ ((blocks.flatMap fun qb => qb.bubbles.map fun bb => (bb.x, bb.y, bb.radius)) ++
        sidcols.flatMap fun col => col.bubbles.map fun bb => (bb.x, bb.y, bb.radius)),
      b.2.2 = s.bubble_radius ∧
      safe_left + s.bubble_radius ≤ b.1 ∧ b.1 + s.bubble_radius ≤ safe_left + usable ∧
      s.margin + s.bubble_radius ≤ b.2.1 ∧ b.2.1 + s.bubble_radius ≤ hpage - s.margin := by
  obtain ⟨hah, hc1, hcle, hrowseq, hrowsle, hspc, hmaxp, hrpos, hqcr, hblocks⟩ :=
    build_question_layout_spec q _ safe_left usable s blocks cols rows sp hq
  set qat := bottom - s.bubble_radius - s.section_gap with hqat
  have ⟨hsp0, hwidth⟩ := spacing_for_columns_spec s (question_block_width s) usable cols sp
    hqcs hmin hc1 hspc
  -- rows * row_height ≤ available height
  have hrowsq : (rows : ℚ) * s.question_row_height ≤ qat - (s.margin + s.bubble_radius) := by
    have hfl1 : (1 : ℤ) ≤ ⌊(qat - (s.margin + s.bubble_radius)) / s.question_row_height⌋ := by
      rw [Int.le_floor]
      push_cast
      rw [le_div_iff₀ hrh]
      linarith
    have hmaxr : max_rows_by_height (qat - (s.margin + s.bubble_radius)) s.question_row_height =
        Int.toNat ⌊(qat - (s.margin + s.bubble_radius)) / s.question_row_height⌋ := by
      unfold max_rows_by_height
      omega
    rw [hmaxr] at hrowsle
    have hcast : (rows : ℤ) ≤ ⌊(qat - (s.margin + s.bubble_radius)) / s.question_row_height⌋ :=
      (Int.le_toNat (by omega)).mp hrowsle
    have hfloor := Int.floor_le ((qat - (s.margin + s.bubble_radius)) / s.question_row_height)
    have hcast' : ((rows : ℤ) : ℚ) ≤
        ((⌊(qat - (s.margin + s.bubble_radius)) / s.question_row_height⌋ : ℤ) : ℚ) := by
      exact_mod_cast hcast
    have hdiv : (rows : ℚ) ≤ (qat - (s.margin + s.bubble_radius)) / s.question_row_height := by
      push_cast at hcast'
      linarith
    exact (le_div_iff₀ hrh).mp hdiv
  intro b hb
  rcases List.mem_append.mp hb with hbq | hbid
  · -- a question bubble
    obtain ⟨qb, hqb, hbb⟩ := List.mem_flatMap.mp hbq
    obtain ⟨bb, hbb', rfl⟩ := List.mem_map.mp hbb
    rw [hblocks] at hqb
    obtain ⟨n, hn, rfl⟩ := List.mem_map.mp hqb
    have hnq : n < q := List.mem_range.mp hn
    have hci : n / rows < cols := by
      rw [Nat.div_lt_iff_lt_mul hrpos]
      omega
    have hri : n % rows < rows := Nat.mod_lt n hrpos
    obtain ⟨hbrad, hbx1, hbx2, hby⟩ := mkQuestionBlock_bubbles qat safe_left sp usable s
      (n / rows) (n % rows) (n + 1) cols hrad hlw hstep hsp0 hci hwidth bb hbb'
    have hricast : ((n % rows : ℕ) : ℚ) ≤ (rows : ℚ) - 1 := by
      have : ((n % rows : ℕ) : ℚ) + 1 ≤ (rows : ℚ) := by exact_mod_cast hri
      linarith
    have hrimul : ((n % rows : ℕ) : ℚ) * s.question_row_height ≤
        ((rows : ℚ) - 1) * s.question_row_height :=
      mul_le_mul_of_nonneg_right hricast (le_of_lt hrh)
    have hri0 : 0 ≤ ((n % rows : ℕ) : ℚ) * s.question_row_height :=
      mul_nonneg (Nat.cast_nonneg _) (le_of_lt hrh)
    refine ⟨hbrad, ?_, ?_, ?_, ?_⟩
    · show safe_left + s.bubble_radius ≤ bb.x
      linarith
    · show bb.x + s.bubble_radius ≤ safe_left + usable
      linarith
    · show s.margin + s.bubble_radius ≤ bb.y
      rw [hby]
      linarith
    · show bb.y + s.bubble_radius ≤ hpage - s.margin
      rw [hby]
      linarith
  · -- a student-id bubble
    obtain ⟨col, hcol, hbb⟩ := List.mem_flatMap.mp hbid
    obtain ⟨bb, hbb', rfl⟩ := List.mem_map.mp hbb
    obtain ⟨hbrad, hbx1, hbx2, hby1, hby2⟩ := hid col hcol bb hbb'
    refine ⟨hbrad, hbx1, hbx2, ?_, ?_⟩
    · show s.margin + s.bubble_radius ≤ bb.y
      linarith
    · show bb.y + s.bubble_radius ≤ hpage - s.margin
      linarith

/-- Every bubble of a layout produced by `generate_layout_for` (with the
standard settings) lies inside the content box and clear of every alignment
marker, given the page's concrete safe-area and clearance facts. -/
theorem generate_layout_for_bounds (q L : ℕ) (orientation pname : String) (w h : ℚ)
    (layout : PageLayout) (sl sr clim : ℚ)
    (hsa : compute_horizontal_safe_area (build_alignment_markers w h build_layout_settings) w
        build_layout_settings.margin build_layout_settings.alignment_clearance = (sl, sr))
    (hcl : compute_student_id_clearance (build_alignment_markers w h build_layout_settings) h
        build_layout_settings.student_id_marker_clearance = some clim)
    (hm_sl : build_layout_settings.margin ≤ sl)
    (hsr_m : sr ≤ w - build_layout_settings.margin)
    (hsl_sr : sl < sr)
    (hmk : ∀ m ∈ build_alignment_markers w h build_layout_settings,
      m.x + m.size + build_layout_settings.alignment_clearance ≤ sl ∨
        sr ≤ m.x - build_layout_settings.alignment_clearance)
    (hok : generate_layout_for q L orientation w h pname build_layout_settings = .ok layout) :
    ∀ b ∈ bubbleTriples layout,
      inContentBounds build_layout_settings.margin layout.width layout.height b ∧
      ∀ m ∈ layout.alignment_markers,
        clearOfMarker build_layout_settings.alignment_clearance m b := by
  have hrad : (0 : ℚ) ≤ build_layout_settings.bubble_radius := by decide!
  have hrpos : (0 : ℚ) < build_layout_settings.bubble_radius := by decide!
  have hlw : (0 : ℚ) ≤ build_layout_settings.question_label_width := by decide!
  have hstep : (0 : ℚ) ≤ build_layout_settings.option_step := by decide!
  have hrh : (0 : ℚ) < build_layout_settings.question_row_height := by decide!
  have hqcs : (0 : ℚ) ≤ build_layout_settings.question_column_spacing := by decide!
  have hminsp : (0 : ℚ) ≤ build_layout_settings.question_column_spacing_min := by decide!
  have hgap : (0 : ℚ) ≤ build_layout_settings.section_gap := by decide!
  have hcst : (0 : ℚ) ≤ build_layout_settings.id_column_step := by decide!
  have hvst : (0 : ℚ) ≤ build_layout_settings.id_vertical_step := by decide!
  have hr_title : build_layout_settings.bubble_radius ≤ build_layout_settings.title_block := by
    decide!
  unfold generate_layout_for at hok
  simp only [hsa] at hok
  rw [if_neg (not_le.mpr (by linarith : (0 : ℚ) < sr - sl))] at hok
  simp only [hcl] at hok
  set idt := min (h - build_layout_settings.margin - build_layout_settings.title_block)
    (clim - (build_layout_settings.bubble_radius + build_layout_settings.student_id_header_gap))
    with hidt
  have hidtop : idt + build_layout_settings.bubble_radius ≤ h - build_layout_settings.margin := by
    have := min_le_left (h - build_layout_settings.margin - build_layout_settings.title_block)
      (clim - (build_layout_settings.bubble_radius + build_layout_settings.student_id_header_gap))
    rw [← hidt] at this
    linarith
  -- the student-id stage
  unfold build_student_id_layout at hok
  have hstage : ∃ sidcols bottom,
      (bottom ≤ idt ∧
        ∀ col ∈ sidcols, ∀ b ∈ col.bubbles,
          b.radius = build_layout_settings.bubble_radius ∧
          sl + build_layout_settings.bubble_radius ≤ b.x ∧
          b.x + build_layout_settings.bubble_radius ≤ sl + (sr - sl) ∧
          bottom ≤ b.y ∧ b.y ≤ idt) ∧
      (match build_question_layout q (bottom - build_layout_settings.bubble_radius -
          build_layout_settings.section_gap) sl (sr - sl) build_layout_settings with
        | .error e => (Except.error e : Except String PageLayout)
        | .ok ql =>
          Except.ok ({ paper_size := pname
                       width := w
                       height := h
                       questions := ql.1
                       student_id := sidcols
                       alignment_markers := build_alignment_markers w h build_layout_settings
                       question_columns := ql.2.1
                       question_rows := ql.2.2.1
                       question_column_spacing := ql.2.2.2
                       content_left := sl
                       content_right := sr
                       question_area_top := bottom - build_layout_settings.bubble_radius -
                         build_layout_settings.section_gap } : PageLayout)) = .ok layout := by
    by_cases hhor : orientation = "horizontal"
    · rw [if_pos hhor] at hok
      cases hsid : build_student_id_layout_horizontal L sl (sr - sl) idt build_layout_settings with
      | error e =>
        rw [hsid] at hok
        exact absurd hok (by simp)
      | ok sid =>
        obtain ⟨sidcols, bottom⟩ := sid
        rw [hsid] at hok
        obtain ⟨hb1, hb2, hspec⟩ :=
          build_horizontal_spec L sl (sr - sl) idt build_layout_settings sidcols bottom
            hrad hcst hvst hsid
        exact ⟨sidcols, bottom, ⟨hb2, hspec⟩, hok⟩
    · rw [if_neg hhor] at hok
      cases hsid : build_student_id_layout_vertical L sl (sr - sl) idt build_layout_settings with
      | error e =>
        rw [hsid] at hok
        exact absurd hok (by simp)
      | ok sid =>
        obtain ⟨sidcols, bottom⟩ := sid
        rw [hsid] at hok
        obtain ⟨hb1, hb2, hspec⟩ :=
          build_vertical_spec L sl (sr - sl) idt build_layout_settings sidcols bottom
            hrad hcst hvst hsid
        exact ⟨sidcols, bottom, ⟨hb2, hspec⟩, hok⟩
  obtain ⟨sidcols, bottom, ⟨hbot_top, hid⟩, hok2⟩ := hstage
  cases hq : build_question_layout q (bottom - build_layout_settings.bubble_radius -
      build_layout_settings.section_gap) sl (sr - sl) build_layout_settings with
  | error e =>
    rw [hq] at hok2
    exact absurd hok2 (by simp)
  | ok ql =>
    obtain ⟨blocks, cols, rows, sp⟩ := ql
    rw [hq] at hok2
    have hlayout := (Except.ok.inj hok2).symm
    subst hlayout
    intro b hb
    have hbounds := stage_bubble_bounds build_layout_settings q sl (sr - sl) idt h
      sidcols bottom blocks cols rows sp hrad hlw hstep hrh hqcs hminsp hgap
      hbot_top hid hq hidtop b hb
    obtain ⟨hbrad, hbx1, hbx2, hby1, hby2⟩ := hbounds
    have hsrr : sl + (sr - sl) = sr := by ring
    rw [hsrr] at hbx2
    exact bubble_ok build_layout_settings.margin build_layout_settings.alignment_clearance
      w h sl sr build_layout_settings.bubble_radius
      (build_alignment_markers w h build_layout_settings) b
      hm_sl hsr_m hrpos hmk hbrad hbx1 hbx2 hby1 hby2

theorem paper_sizes_cases (name : String) (wh : ℚ × ℚ) (h : PAPER_SIZES name = some wh) :
    wh = (595, 842) ∨ wh = (612, 792) := by
  unfold PAPER_SIZES at h
  by_cases h1 : name = "A4"
  · rw [if_pos h1] at h
    exact Or.inl (Option.some.inj h).symm
  · rw [if_neg h1] at h
    by_cases h2 : name = "LETTER"
    · rw [if_pos h2] at h
      exact Or.inr (Option.some.inj h).symm
    · rw [if_neg h2] at h
      exact absurd h (by simp)

theorem c2_layout_bounds :
    ∀ (q L : ℕ) (p o : String) (layout : PageLayout),
      validate_inputs q L →
      generate_layout q L p o build_layout_settings = .ok layout →
      ∀ b ∈ bubbleTriples layout,
        inContentBounds build_layout_settings.margin layout.width layout.height b ∧
        ∀ m ∈ layout.alignment_markers,
          clearOfMarker build_layout_settings.alignment_clearance m b := by
  intro q L p o layout hval hok
  unfold generate_layout at hok
  cases hps : PAPER_SIZES (PyStr.upper p) with
  | none =>
    simp only [hps] at hok
    exact absurd hok (by simp)
  | some wh =>
    obtain ⟨w, ht⟩ := wh
    have hwh := paper_sizes_cases _ _ hps
    simp only [hps] at hok
    by_cases hor : PyStr.lower o ∉ ID_ORIENTATIONS
    · rw [if_pos hor] at hok
      exact absurd hok (by simp)
    · rw [if_neg hor] at hok
      rcases hwh with hwh | hwh <;> rw [Prod.mk.injEq] at hwh <;> obtain ⟨rfl, rfl⟩ := hwh
      · exact generate_layout_for_bounds q L (PyStr.lower o) (PyStr.upper p) 595 842 layout
          (8766/127) (66799/127) (98168/127)
          (by decide!) (by decide!) (by decide!) (by decide!) (by decide!) (by decide!) hok
      · exact generate_layout_for_bounds q L (PyStr.lower o) (PyStr.upper p) 612 792 layout
          (8766/127) (68958/127) (91818/127)
          (by decide!) (by decide!) (by decide!) (by decide!) (by decide!) (by decide!) hok

/-- Witness for C2: the demonstration layout is produced, its first bubble is
a concrete triple, and that bubble satisfies the bounds. -/
theorem c2_layout_bounds_witness :
    (validate_inputs 1 4 ∧
      generate_layout 1 4 "A4" "vertical" build_layout_settings = .ok demoLayout ∧
      ((13806/127 : ℚ), (66128/127 : ℚ), (720/127 : ℚ)) ∈ bubbleTriples demoLayout) ∧
    (inContentBounds build_layout_settings.margin demoLayout.width demoLayout.height
        ((13806/127 : ℚ), (66128/127 : ℚ), (720/127 : ℚ)) ∧
      ∀ m ∈ demoLayout.alignment_markers,
        clearOfMarker build_layout_settings.alignment_clearance m
          ((13806/127 : ℚ), (66128/127 : ℚ), (720/127 : ℚ))) :=
  ⟨⟨by decide, by decide!, by decide!⟩,
    c2_layout_bounds 1 4 "A4" "vertical" demoLayout (by decide) (by decide!)
      ((13806/127 : ℚ), (66128/127 : ℚ), (720/127 : ℚ)) (by decide!)⟩

/-- C4 counterexample: for one question the solver returns 1 column, although
3 columns — the width-derived maximum for this width — also satisfy both the
spacing and the row constraint, so "the largest column count searching from
the width-derived maximum down to 1" is not what the code chooses: the
search start is additionally capped by the question count. -/
theorem c4_width_maximum_counterexample :
    build_question_layout 1 500 69 457 build_layout_settings =
      .ok ([⟨1, 69, 500,
        [⟨"A", 13803/127, 500, 720/127⟩, ⟨"B", 16683/127, 500, 720/127⟩,
         ⟨"C", 19563/127, 500, 720/127⟩, ⟨"D", 22443/127, 500, 720/127⟩,
         ⟨"E", 25323/127, 500, 720/127⟩]⟩], 1, 1, 0) ∧
    (spacing_for_columns build_layout_settings (question_block_width build_layout_settings)
        457 3).isSome = true ∧
    (1 + 3 - 1) / 3 ≤ max_rows_by_height
      (500 - (build_layout_settings.margin + build_layout_settings.bubble_radius))
      build_layout_settings.question_row_height ∧
    max_columns_by_width 457 (question_block_width build_layout_settings)
      build_layout_settings.question_column_spacing_min = 3 ∧
    1 < 3 := by
  refine ⟨by decide!, by decide!, by decide!, by decide!, by decide⟩

/-- C4 (amended): when the question-grid solver succeeds it chooses the
largest column count C within [1, min(question_count, width-derived
maximum)] satisfying the spacing and row constraints (first fit searching
downward), and the block list is exactly questions 1..question_count laid
out column-major (column index n/rows, row index n%rows), each block with
exactly the 5 option bubbles A–E — never a truncated question list. -/
theorem c4_question_grid :
    ∀ (q : ℕ) (area_top start_x aw : ℚ) (blocks : List QuestionBlock) (cols rows : ℕ) (sp : ℚ),
      build_question_layout q area_top start_x aw build_layout_settings =
        .ok (blocks, cols, rows, sp) →
      (1 ≤ cols ∧
        cols ≤ min q (max_columns_by_width aw (question_block_width build_layout_settings)
          build_layout_settings.question_column_spacing_min) ∧
        spacing_for_columns build_layout_settings (question_block_width build_layout_settings)
          aw cols = some sp ∧
        rows = (q + cols - 1) / cols ∧
        rows ≤ max_rows_by_height
          (area_top - (build_layout_settings.margin + build_layout_settings.bubble_radius))
          build_layout_settings.question_row_height) ∧
      (∀ c', cols < c' →
        c' ≤ min q (max_columns_by_width aw (question_block_width build_layout_settings)
          build_layout_settings.question_column_spacing_min) →
        spacing_for_columns build_layout_settings (question_block_width build_layout_settings)
          aw c' = none ∨
          max_rows_by_height
            (area_top - (build_layout_settings.margin + build_layout_settings.bubble_radius))
            build_layout_settings.question_row_height < (q + c' - 1) / c') ∧
      blocks = (List.range q).map (fun n => mkQuestionBlock area_top start_x
        (question_block_width build_layout_settings) sp build_layout_settings
        (n / rows) (n % rows) (n + 1)) ∧
      blocks.length = q ∧
      (blocks.map fun blk => blk.number) = (List.range q).map (fun n => n + 1) ∧
      ∀ blk ∈ blocks, (blk.bubbles.map fun bb => bb.letter) = OPTIONS := by
  intro q area_top start_x aw blocks cols rows sp h
  obtain ⟨hah, hc1, hcle, hrowseq, hrowsle, hspc, hmaxp, hrpos, hqcr, hblocks⟩ :=
    build_question_layout_spec q area_top start_x aw build_layout_settings blocks cols rows sp h
  refine ⟨⟨hc1, hcle, hspc, hrowseq, hrowsle⟩, hmaxp, hblocks, ?_, ?_, ?_⟩
  · rw [hblocks, List.length_map, List.length_range]
  · rw [hblocks, List.map_map]
    apply List.map_congr_left
    intro n _
    rfl
  · intro blk hblk
    rw [hblocks] at hblk
    obtain ⟨n, hn, rfl⟩ := List.mem_map.mp hblk
    rfl

/-- Witness for C4 at the one-question instance of the counterexample. -/
theorem c4_question_grid_witness :
    build_question_layout 1 500 69 457 build_layout_settings =
      .ok ([⟨1, 69, 500,
        [⟨"A", 13803/127, 500, 720/127⟩, ⟨"B", 16683/127, 500, 720/127⟩,
         ⟨"C", 19563/127, 500, 720/127⟩, ⟨"D", 22443/127, 500, 720/127⟩,
         ⟨"E", 25323/127, 500, 720/127⟩]⟩], 1, 1, 0) ∧
    ([⟨1, 69, 500,
        [⟨"A", 13803/127, 500, 720/127⟩, ⟨"B", 16683/127, 500, 720/127⟩,
         ⟨"C", 19563/127, 500, 720/127⟩, ⟨"D", 22443/127, 500, 720/127⟩,
         ⟨"E", 25323/127, 500, 720/127⟩]⟩] : List QuestionBlock).length = 1 ∧
    ∀ blk ∈ ([⟨1, 69, 500,
        [⟨"A", 13803/127, 500, 720/127⟩, ⟨"B", 16683/127, 500, 720/127⟩,
         ⟨"C", 19563/127, 500, 720/127⟩, ⟨"D", 22443/127, 500, 720/127⟩,
         ⟨"E", 25323/127, 500, 720/127⟩]⟩] : List QuestionBlock),
      (blk.bubbles.map fun bb => bb.letter) = OPTIONS :=
  ⟨by decide!,
    (c4_question_grid 1 500 69 457 _ 1 1 0 (by decide!)).2.2.2.1,
    (c4_question_grid 1 500 69 457 _ 1 1 0 (by decide!)).2.2.2.2.2⟩

/-- C9 counterexample: on a 100-point-wide page the clearance-adjusted right
edge lies left of the clearance-adjusted left edge, yet
`compute_horizontal_safe_area` does not fail — it falls back to the
margin-bounded area (36, 64), whose width is positive, so the downstream
`usable_width ≤ 0` check of `generate_layout` would not fire either. -/
theorem c9_no_failure_counterexample :
    ((safe_area_fold (build_alignment_markers 100 842 build_layout_settings) 100
        build_layout_settings.margin build_layout_settings.alignment_clearance).2 ≤
      (safe_area_fold (build_alignment_markers 100 842 build_layout_settings) 100
        build_layout_settings.margin build_layout_settings.alignment_clearance).1) ∧
    compute_horizontal_safe_area (build_alignment_markers 100 842 build_layout_settings) 100
      build_layout_settings.margin build_layout_settings.alignment_clearance = (36, 64) ∧
    ¬ ((64 : ℚ) - 36 ≤ 0) := by
  refine ⟨by decide!, by decide!, by decide!⟩

/-- C9 (amended): when the alignment markers' clearance zones leave no usable
width (clearance-adjusted right edge ≤ left edge), the safe-area computation
does not fail: it falls back to the margin-bounded area
(margin, page_width − margin); `generate_layout` fails only if that area is
itself empty. For the two supported paper sizes the clearance-adjusted
edges never cross, so the fallback never fires in the validated pipeline. -/
theorem c9_safe_area_fallback :
    (∀ (markers : List Marker) (pw margin cl : ℚ),
      (safe_area_fold markers pw margin cl).2 ≤ (safe_area_fold markers pw margin cl).1 →
      compute_horizontal_safe_area markers pw margin cl = (margin, pw - margin)) ∧
    (∀ (name : String) (wh : ℚ × ℚ), PAPER_SIZES name = some wh →
      (safe_area_fold (build_alignment_markers wh.1 wh.2 build_layout_settings) wh.1
          build_layout_settings.margin build_layout_settings.alignment_clearance).1 <
        (safe_area_fold (build_alignment_markers wh.1 wh.2 build_layout_settings) wh.1
          build_layout_settings.margin build_layout_settings.alignment_clearance).2) := by
  constructor
  · intro markers pw margin cl hle
    unfold compute_horizontal_safe_area
    rw [if_pos hle]
  · intro name wh h
    rcases paper_sizes_cases name wh h with rfl | rfl
    · decide!
    · decide!

/-- Witness for C9 at the 100-point page (fallback case) and A4 (no-crossing
case). -/
theorem c9_safe_area_fallback_witness :
    (((safe_area_fold (build_alignment_markers 100 842 build_layout_settings) 100
          build_layout_settings.margin build_layout_settings.alignment_clearance).2 ≤
        (safe_area_fold (build_alignment_markers 100 842 build_layout_settings) 100
          build_layout_settings.margin build_layout_settings.alignment_clearance).1) ∧
      compute_horizontal_safe_area (build_alignment_markers 100 842 build_layout_settings) 100
        build_layout_settings.margin build_layout_settings.alignment_clearance =
        (build_layout_settings.margin, 100 - build_layout_settings.margin)) ∧
    (PAPER_SIZES "A4" = some (595, 842) ∧
      (safe_area_fold (build_alignment_markers (595, (842 : ℚ)).1 (595, (842 : ℚ)).2
          build_layout_settings) (595, (842 : ℚ)).1
          build_layout_settings.margin build_layout_settings.alignment_clearance).1 <
        (safe_area_fold (build_alignment_markers (595, (842 : ℚ)).1 (595, (842 : ℚ)).2
          build_layout_settings) (595, (842 : ℚ)).1
          build_layout_settings.margin build_layout_settings.alignment_clearance).2) :=
  ⟨⟨by decide!,
      c9_safe_area_fallback.1 (build_alignment_markers 100 842 build_layout_settings) 100
        build_layout_settings.margin build_layout_settings.alignment_clearance (by decide!)⟩,
    ⟨by decide!, c9_safe_area_fallback.2 "A4" (595, 842) (by decide!)⟩⟩

end Sheet
